import Mathlib

/-
Shallow embedding of the NELSC calendar utility (grcal.c, nelsc_cycle.c,
base24.c) and proofs of the specification's claims about it.

Modelling conventions:
* C `int32_t` is modelled as `Int`; none of the computations below can
  overflow 32 bits on the domains involved, so no wrap-around modelling is
  needed.
* C functions that can `abort()` (contract faults) are modelled as
  `Option`-returning functions, `none` meaning the fault.  Functions that
  report recoverable failure through a `bool` return are also modelled with
  `Option`, `none` meaning `false` (no output produced).  In every such
  function the fault paths and failure paths are mutually exclusive by
  construction, mirroring the C control flow.
* C integer division `/` and remainder `%` truncate toward zero.  In every
  division or remainder below, the C code has already forced the dividend
  to be non-negative (by range checks and the explicit "boost" additions),
  and the divisors are positive constants, so truncating division agrees
  with Lean's Euclidean `/` and `%` on `Int`, which are therefore used
  directly.
* C strings are modelled as `List Char`; reading a null-terminated string
  is modelled by `sget`, which yields the NUL character past the end.
-/

/-! ## Constants from grcal.c / grcal.h -/

def MONTH_COUNT : Int := 12

def MONTH_OFFSET : Int := 2

def LONG_MONTH_LENGTH : Int := 31

def SHORT_MONTH_LENGTH : Int := 30

def LEAP_MONTH_LENGTH : Int := 29

def NONLEAP_MONTH_LENGTH : Int := 28

def QC_DAYS : Int := 146097

def C_DAYS : Int := 36524

def Q_DAYS : Int := 1461

def Y_DAYS : Int := 365

def Y_LEAP_DAYS : Int := 366

def QC_C_COUNT : Int := 4

def C_Q_COUNT : Int := 25

def Q_Y_COUNT : Int := 4

def QC_YEARS : Int := 400

def C_YEARS : Int := 100

def Q_YEARS : Int := 4

def BASE_YEAR : Int := 1200

def MAX_YEAR : Int := 9999

def GRCAL_DAY_MIN : Int := 139750

def GRCAL_DAY_MAX : Int := 3214073

/-- The pattern of March-based month lengths (grcal.c `m_pattern`):
`'+'` is a 31-day month, `'-'` a 30-day month, `'*'` the variable month. -/
def m_pattern : List Char :=
  ['+', '-', '+', '-', '+', '+', '-', '+', '-', '+', '+', '*']

/-- grcal.c `isLeapYear`: Gregorian leap-year test for a (January-based)
year; `none` models the `abort()` on `y < 1`.  The body mirrors the two
sequential `if` statements of the C code. -/
def isLeapYear (y : Int) : Option Bool :=
  if y < 1 then none
  else
    let leapyear := false
    let leapyear := if y % 400 = 0 then true else leapyear
    let leapyear := if y % 4 = 0 ∧ y % 100 ≠ 0 then true else leapyear
    some leapyear

/-- grcal.c `monthLength`: length of the March-based month `i`, `some 0`
for the variable-length month, `none` models `abort()` on a bad index or a
bad pattern character. -/
def monthLength (i : Int) : Option Int :=
  if i < 0 ∨ MONTH_COUNT ≤ i then none
  else
    match m_pattern.get? i.toNat with
    | some '+' => some LONG_MONTH_LENGTH
    | some '-' => some SHORT_MONTH_LENGTH
    | some '*' => some 0
    | _ => none

/-- The month-walk loop of `grcal_offsetToDate`: starting from the head of
the remaining pattern, consume whole months from the day remainder `d`
while it does not fall inside the current month, stopping at the
variable-length month.  Returns (months consumed, day remainder); `none`
models the `abort()` that `monthLength` would raise if the loop ran off
the end of the pattern or met a bad character. -/
def offsMonthWalk : List Char → Int → Option (Int × Int)
  | [], d => if 0 < d then none else some (0, d)
  | ch :: rest, d =>
    if 0 < d then
      if ch = '+' ∨ ch = '-' ∨ ch = '*' then
        let ml : Int :=
          if ch = '+' then LONG_MONTH_LENGTH
          else if ch = '-' then SHORT_MONTH_LENGTH
          else 0
        if ml = 0 ∨ d < ml then some (0, d)
        else
          match offsMonthWalk rest (d - ml) with
          | none => none
          | some km => some (km.1 + 1, km.2)
      else none
    else some (0, d)

/-- The quad-century / century / quad-year / year decomposition performed
at the start of `grcal_offsetToDate`, including the two leap-day special
cases.  Returns (March-based year including `BASE_YEAR`, day-in-year). -/
def grcalYearSplit (offs : Int) : Int × Int :=
  let qc := offs / QC_DAYS
  let r1 := offs % QC_DAYS
  let c0 := r1 / C_DAYS
  let r2 := r1 % C_DAYS
  let q0 := r2 / Q_DAYS
  let r3 := r2 % Q_DAYS
  let y0 := r3 / Y_DAYS
  let d0 := r3 % Y_DAYS
  let c1 := if c0 = QC_C_COUNT then QC_C_COUNT - 1 else c0
  let q1 := if c0 = QC_C_COUNT then C_Q_COUNT - 1 else q0
  let y1 := if c0 = QC_C_COUNT then Q_Y_COUNT - 1 else y0
  let d1 := if c0 = QC_C_COUNT then Y_LEAP_DAYS - 1 else d0
  let y2 := if y1 = Q_Y_COUNT then Q_Y_COUNT - 1 else y1
  let d2 := if y1 = Q_Y_COUNT then Y_LEAP_DAYS - 1 else d1
  (qc * QC_YEARS + c1 * C_YEARS + q1 * Q_YEARS + y2 + BASE_YEAR, d2)

/-- grcal.c `grcal_offsetToDate`: convert a Gregorian day offset to a
(year, month, day-of-month) triple; `none` models the `abort()` on an
out-of-range offset. -/
def grcal_offsetToDate (offs : Int) : Option (Int × Int × Int) :=
  if offs < GRCAL_DAY_MIN ∨ offs > GRCAL_DAY_MAX then none
  else
    let yd := grcalYearSplit offs
    match offsMonthWalk m_pattern yd.2 with
    | none => none
    | some km =>
      let day := km.2 + 1
      let month0 := km.1 + MONTH_OFFSET
      let month1 := if month0 ≥ MONTH_COUNT then month0 - MONTH_COUNT else month0
      let year1 := if month0 ≥ MONTH_COUNT then yd.1 + 1 else yd.1
      some (year1, month1 + 1, day)

/-- The month-start summation loop of `grcal_dateToOffset`:
`for (x = 0; x < month; x++) offs += monthLength(x)`. -/
def sumMonthLens : Nat → Option Int
  | 0 => some 0
  | k + 1 =>
    match sumMonthLens k, monthLength (k : Int) with
    | some s, some ml => some (s + ml)
    | _, _ => none

/-- grcal.c `grcal_dateToOffset`: convert a Gregorian date to a day
offset; `none` models the `false` return (invalid date or out-of-range
offset). -/
def grcal_dateToOffset (year month dayofmonth : Int) : Option Int :=
  if year ≤ BASE_YEAR ∨ month < 1 ∨ dayofmonth < 1 then none
  else if year > MAX_YEAR ∨ month > MONTH_COUNT then none
  else
    let dom := dayofmonth - 1
    let m0 := month - 1 - MONTH_OFFSET
    let year1 := if m0 < 0 then year - 1 else year
    let m1 := if m0 < 0 then m0 + MONTH_COUNT else m0
    match monthLength m1 with
    | none => none
    | some ml0 =>
      let mlOpt : Option Int :=
        if ml0 = 0 then
          match isLeapYear (year1 + 1) with
          | none => none
          | some true => some LEAP_MONTH_LENGTH
          | some false => some NONLEAP_MONTH_LENGTH
        else some ml0
      match mlOpt with
      | none => none
      | some ml =>
        if dom ≥ ml then none
        else
          let yr := year1 - BASE_YEAR
          let qc := yr / QC_YEARS
          let yr1 := yr % QC_YEARS
          let c := yr1 / C_YEARS
          let yr2 := yr1 % C_YEARS
          let q := yr2 / Q_YEARS
          let yr3 := yr2 % Q_YEARS
          match sumMonthLens m1.toNat with
          | none => none
          | some ms =>
            let offs := qc * QC_DAYS + c * C_DAYS + q * Q_DAYS + yr3 * Y_DAYS
                          + ms + dom
            if offs < GRCAL_DAY_MIN ∨ offs > GRCAL_DAY_MAX then none
            else some offs

/-! ## Constants from nelsc_cycle.c / nelsc_cycle.h -/

def DAYS_PER_SHORT_MONTH : Int := 28

def DAYS_PER_LONG_MONTH : Int := 35

def MONTHS_PER_SHORT_YEAR : Int := 12

def MONTHS_PER_LONG_YEAR : Int := 13

def DAYS_PER_MONTH_PATTERN : Int := 945

def MONTH_PATTERN_LENGTH : Int := 32

def MONTHS_PER_YEAR_SPAN : Int := 136

def MONTHS_PER_YEAR_PATTERN : Int := 2857

def YEAR_SPAN_LENGTH : Int := 11

def YEAR_PATTERN_LENGTH : Int := 231

def ABSOLUTE_DAY_OFFSET : Int := 308

def ABSOLUTE_MONTH_OFFSET : Int := 10

def DAY_UP_BOOST : Int := 35910

def MONTH_UP_SINK : Int := 1216

def MONTH_UP_BOOST : Int := 1496

def YEAR_UP_SINK : Int := 121

def YEAR_DOWN_BOOST : Int := YEAR_UP_SINK

def MONTH_DOWN_SINK : Int := MONTH_UP_BOOST

def MONTH_DOWN_BOOST : Int := MONTH_UP_SINK

def DAY_DOWN_SINK : Int := DAY_UP_BOOST

def NELSC_CYCLE_DAYMIN : Int := -35364

def NELSC_CYCLE_DAYMAX : Int := 175020

def NELSC_CYCLE_MONMIN : Int := -1197

def NELSC_CYCLE_MONMAX : Int := 5926

def NELSC_CYCLE_YEARMIN : Int := -96

def NELSC_CYCLE_YEARMAX : Int := 479

/-- The 32-month long/short pattern (nelsc_cycle.c `m_month_pattern`). -/
def m_month_pattern : List Char :=
  ['S', 'S', 'L', 'S',  'S', 'S', 'S', 'L', 'S',
   'S', 'S', 'L', 'S',  'S', 'S', 'S', 'L', 'S',
   'S', 'S', 'L', 'S',  'S', 'S', 'S', 'L', 'S',
                        'S', 'S', 'S', 'L', 'S']

/-- The 11-year span long/short pattern (nelsc_cycle.c `m_year_span`). -/
def m_year_span : List Char :=
  ['S', 'L',  'S', 'L',  'S', 'S', 'L',  'S', 'S', 'L',  'S']

/-- nelsc_cycle.c `charToBool`: `'L'` is long, `'S'` is short, anything
else (including the NUL read past the end of a pattern) is a fault. -/
def charToBool (c : Char) : Option Bool :=
  if c = 'L' then some true
  else if c = 'S' then some false
  else none

/-- The month-walk loop of `nelsc_cycle_dayToMonth`: consume whole months
from the day remainder `d`, following the long/short pattern, until `d`
falls inside the current month.  Returns (months consumed, day remainder);
`none` models the `charToBool` fault if the pattern were exhausted. -/
def walkDayToMonth : List Char → Int → Option (Int × Int)
  | [], d => if 0 < d then none else some (0, d)
  | ch :: rest, d =>
    if 0 < d then
      match charToBool ch with
      | none => none
      | some mlong =>
        if (mlong ∧ d < DAYS_PER_LONG_MONTH)
            ∨ (¬mlong ∧ d < DAYS_PER_SHORT_MONTH) then some (0, d)
        else
          match walkDayToMonth rest
              (d - if mlong then DAYS_PER_LONG_MONTH else DAYS_PER_SHORT_MONTH) with
          | none => none
          | some km => some (km.1 + 1, km.2)
    else some (0, d)

/-- nelsc_cycle.c `nelsc_cycle_dayToMonth`: NELSC absolute day offset to
(absolute month offset, day offset within month); `none` models the
`abort()` on an out-of-range day. -/
def nelsc_cycle_dayToMonth (d : Int) : Option (Int × Int) :=
  if d < NELSC_CYCLE_DAYMIN ∨ d > NELSC_CYCLE_DAYMAX then none
  else
    let d1 := d + ABSOLUTE_DAY_OFFSET
    let d2 := if d1 < 0 then d1 + DAY_UP_BOOST else d1
    let mc := d2 / DAYS_PER_MONTH_PATTERN * MONTH_PATTERN_LENGTH
    let r := d2 % DAYS_PER_MONTH_PATTERN
    match walkDayToMonth m_month_pattern r with
    | none => none
    | some km =>
      let mc2 := mc + km.1
      let mc3 := if d1 < 0 then mc2 - MONTH_UP_SINK else mc2
      some (mc3 - ABSOLUTE_MONTH_OFFSET, km.2)

/-- The day-count summation loop of `nelsc_cycle_monthToDay`:
`for (i = 0; i < m; i++) day_count += length of pattern month i`. -/
def sumDaysOfMonths : Nat → Option Int
  | 0 => some 0
  | k + 1 =>
    match sumDaysOfMonths k, m_month_pattern.get? k with
    | some s, some ch =>
      match charToBool ch with
      | some true => some (s + DAYS_PER_LONG_MONTH)
      | some false => some (s + DAYS_PER_SHORT_MONTH)
      | none => none
    | _, _ => none

/-- nelsc_cycle.c `nelsc_cycle_monthToDay`: NELSC absolute month offset to
the absolute day offset of the month's first day; `none` models the
`abort()` on an out-of-range month. -/
def nelsc_cycle_monthToDay (m : Int) : Option Int :=
  if m < NELSC_CYCLE_MONMIN ∨ m > NELSC_CYCLE_MONMAX then none
  else
    let m1 := m + ABSOLUTE_MONTH_OFFSET
    let m2 := if m1 < 0 then m1 + MONTH_DOWN_BOOST else m1
    let dc := m2 / MONTH_PATTERN_LENGTH * DAYS_PER_MONTH_PATTERN
    let r := m2 % MONTH_PATTERN_LENGTH
    match sumDaysOfMonths r.toNat with
    | none => none
    | some s =>
      let dc2 := dc + s
      let dc3 := if m1 < 0 then dc2 - DAY_DOWN_SINK else dc2
      some (dc3 - ABSOLUTE_DAY_OFFSET)

/-- The year-walk loop of `nelsc_cycle_monthToYear`: consume whole years
from the month remainder `m`, following the span pattern, until `m` falls
inside the current year. -/
def walkMonthToYear : List Char → Int → Option (Int × Int)
  | [], m => if 0 < m then none else some (0, m)
  | ch :: rest, m =>
    if 0 < m then
      match charToBool ch with
      | none => none
      | some mlong =>
        if (mlong ∧ m < MONTHS_PER_LONG_YEAR)
            ∨ (¬mlong ∧ m < MONTHS_PER_SHORT_YEAR) then some (0, m)
        else
          match walkMonthToYear rest
              (m - if mlong then MONTHS_PER_LONG_YEAR else MONTHS_PER_SHORT_YEAR) with
          | none => none
          | some km => some (km.1 + 1, km.2)
    else some (0, m)

/-- nelsc_cycle.c `nelsc_cycle_monthToYear`: NELSC absolute month offset
to (year, month offset within year), including the `force13` special case
for the last month of a 231-year pattern; `none` models the `abort()` on
an out-of-range month. -/
def nelsc_cycle_monthToYear (m : Int) : Option (Int × Int) :=
  if m < NELSC_CYCLE_MONMIN ∨ m > NELSC_CYCLE_MONMAX then none
  else
    let m1 := m + ABSOLUTE_MONTH_OFFSET + MONTH_UP_BOOST
    let yc1 := m1 / MONTHS_PER_YEAR_PATTERN * YEAR_PATTERN_LENGTH
    let r1 := m1 % MONTHS_PER_YEAR_PATTERN
    let yc2 := if r1 = MONTHS_PER_YEAR_PATTERN - 1
                 then yc1 + (YEAR_PATTERN_LENGTH - 1) else yc1
    let r2 := if r1 = MONTHS_PER_YEAR_PATTERN - 1 then 0 else r1
    let yc3 := yc2 + r2 / MONTHS_PER_YEAR_SPAN * YEAR_SPAN_LENGTH
    let r3 := r2 % MONTHS_PER_YEAR_SPAN
    match walkMonthToYear m_year_span r3 with
    | none => none
    | some km =>
      let r4 := if r1 = MONTHS_PER_YEAR_PATTERN - 1
                  then MONTHS_PER_LONG_YEAR - 1 else km.2
      some (yc3 + km.1 - YEAR_UP_SINK, r4)

/-- The month-count summation loop of `nelsc_cycle_yearToMonth`:
`for (i = 0; i < y; i++) month_count += months of span year i`. -/
def sumMonthsOfYears : Nat → Option Int
  | 0 => some 0
  | k + 1 =>
    match sumMonthsOfYears k, m_year_span.get? k with
    | some s, some ch =>
      match charToBool ch with
      | some true => some (s + MONTHS_PER_LONG_YEAR)
      | some false => some (s + MONTHS_PER_SHORT_YEAR)
      | none => none
    | _, _ => none

/-- nelsc_cycle.c `nelsc_cycle_yearToMonth`: NELSC year to the absolute
month offset of the year's first month; `none` models the `abort()` on an
out-of-range year. -/
def nelsc_cycle_yearToMonth (y : Int) : Option Int :=
  if y < NELSC_CYCLE_YEARMIN ∨ y > NELSC_CYCLE_YEARMAX then none
  else
    let y1 := y + YEAR_DOWN_BOOST
    let mc1 := y1 / YEAR_PATTERN_LENGTH * MONTHS_PER_YEAR_PATTERN
    let r1 := y1 % YEAR_PATTERN_LENGTH
    let mc2 := mc1 + r1 / YEAR_SPAN_LENGTH * MONTHS_PER_YEAR_SPAN
    let r2 := r1 % YEAR_SPAN_LENGTH
    match sumMonthsOfYears r2.toNat with
    | none => none
    | some s => some (mc2 + s - MONTH_DOWN_SINK - ABSOLUTE_MONTH_OFFSET)

/-- nelsc_cycle.c `nelsc_cycle_isLongYear`: a NELSC year is long when the
first month of the next year (or one past the greatest month, for the
final year) is more than 12 months after its own first month. -/
def nelsc_cycle_isLongYear (y : Int) : Option Bool :=
  if y < NELSC_CYCLE_YEARMIN ∨ y > NELSC_CYCLE_YEARMAX then none
  else
    match nelsc_cycle_yearToMonth y with
    | none => none
    | some mb =>
      match (if y < NELSC_CYCLE_YEARMAX
               then nelsc_cycle_yearToMonth (y + 1)
               else some (NELSC_CYCLE_MONMAX + 1)) with
      | none => none
      | some mn => some (decide (mn - mb > MONTHS_PER_SHORT_YEAR))

/-! ## base24.c -/

def UPAIR24_MAX : Int := 576

def BASE24_PAIR_MIN : Int := -96

def BASE24_PAIR_MAX : Int := 479

def BASE24_DIGIT_MAX : Int := 23

/-- The NUL character terminating every C string. -/
def nullChar : Char := Char.ofNat 0

/-- The base-24 digits in uppercase (base24.c `m_base24`). -/
def m_base24 : List Char :=
  ['0', '1', '2', '3', '4', '5', '6', '7', '8', '9',
   'A', 'B', 'C', 'D', 'E', 'F', 'G', 'M', 'P', 'R', 'T', 'V', 'X', 'Y']

/-- C `toupper` restricted to the ASCII characters used here. -/
def ctoupper (c : Char) : Char :=
  if 'a' ≤ c ∧ c ≤ 'z' then Char.ofNat (c.toNat - 32) else c

/-- C `strchr` on a null-terminated string, returning the index of the
first occurrence of `c`.  As in C, the terminating NUL itself is part of
the searched string, so `strchrIdx nullChar s` finds position `s.length`. -/
def strchrIdx (c : Char) : List Char → Option Nat
  | [] => if c = nullChar then some 0 else none
  | x :: rest =>
    if x = c then some 0
    else
      match strchrIdx c rest with
      | none => none
      | some i => some (i + 1)

/-- Reading character `i` of a null-terminated string: characters past the
end read as NUL. -/
def sget (s : List Char) (i : Nat) : Char := s.getD i nullChar

/-- base24.c `base24_digitToInt`: value of a base-24 digit character, or
`-1` for a character `strchr` does not find in `m_base24`. -/
def base24_digitToInt (c : Char) : Int :=
  match strchrIdx (ctoupper c) m_base24 with
  | none => -1
  | some i => (i : Int)

/-- base24.c `base24_pairToInt`: parse a signed base-24 pair at the start
of a string; `none` models the `false` return. -/
def base24_pairToInt (str : List Char) : Option Int :=
  if sget str 0 = nullChar then none
  else
    let dm := base24_digitToInt (sget str 0)
    let dl := base24_digitToInt (sget str 1)
    if dm = -1 ∨ dl = -1 then none
    else
      let val := dm * 24 + dl
      some (if val > BASE24_PAIR_MAX then val - UPAIR24_MAX else val)

/-- base24.c `base24_intToDigit`: digit character for a value in 0..23;
`none` models the `abort()` on an out-of-range value. -/
def base24_intToDigit (v : Int) : Option Char :=
  if v < 0 ∨ v > BASE24_DIGIT_MAX then none
  else m_base24.get? v.toNat

/-- base24.c `base24_printPair`: the two digit characters printed for a
signed value in -96..479; `none` models the `abort()` on an out-of-range
value. -/
def base24_printPair (v : Int) : Option (Char × Char) :=
  if v < BASE24_PAIR_MIN ∨ v > BASE24_PAIR_MAX then none
  else
    let v1 := if v < 0 then v + UPAIR24_MAX else v
    let dl := v1 % 24
    let dm := v1 / 24
    match base24_intToDigit dm, base24_intToDigit dl with
    | some cm, some cl => some (cm, cl)
    | _, _ => none

/-- The string printed by `base24_printPair`, as a character list. -/
def b24pp (v : Int) : List Char :=
  match base24_printPair v with
  | some p => [p.1, p.2]
  | none => []

/-! ## Derived definitions used by the proofs -/

/-- Day count from day offset zero (1200-03-01) to the first day of the
March-based year `year1`: exactly the quad-century / century / quad-year /
year summation performed by `grcal_dateToOffset`. -/
def yearStartDays (year1 : Int) : Int :=
  let yr := year1 - BASE_YEAR
  yr / QC_YEARS * QC_DAYS + yr % QC_YEARS / C_YEARS * C_DAYS
    + yr % QC_YEARS % C_YEARS / Q_YEARS * Q_DAYS
    + yr % QC_YEARS % C_YEARS % Q_YEARS * Y_DAYS

/-- Gregorian leap-year rule as a plain boolean formula (no domain
check), used to state validity claims. -/
def gregIsLeapB (y : Int) : Bool :=
  decide (y % 400 = 0 ∨ (y % 4 = 0 ∧ y % 100 ≠ 0))

/-- Length of Gregorian month `m` of year `y` by the standard table. -/
def gregMonthLen (y m : Int) : Int :=
  if m = 2 then (if gregIsLeapB y then 29 else 28)
  else if m = 4 ∨ m = 6 ∨ m = 9 ∨ m = 11 then 30
  else 31

/-- A (year, month, day) triple is a well-formed in-range Gregorian date:
year in (1200, 9999], month in 1..12, day within the leap-aware month
length. -/
def gregValidDate (y m d : Int) : Prop :=
  BASE_YEAR < y ∧ y ≤ MAX_YEAR ∧ 1 ≤ m ∧ m ≤ MONTH_COUNT
    ∧ 1 ≤ d ∧ d ≤ gregMonthLen y m

instance (y m d : Int) : Decidable (gregValidDate y m d) := by
  unfold gregValidDate
  infer_instance

/-- The day offset `grcal_dateToOffset` computes for a triple, with all
validity checking stripped: the March-based re-indexing followed by the
period summation. -/
def gregRawOffset (year month dayofmonth : Int) : Int :=
  let m0 := month - 1 - MONTH_OFFSET
  let year1 := if m0 < 0 then year - 1 else year
  let m1 := if m0 < 0 then m0 + MONTH_COUNT else m0
  yearStartDays year1 + (sumMonthLens m1.toNat).getD 0 + (dayofmonth - 1)

/-- Per-residue soundness checker for the NELSC day-to-month walk: for a
day remainder `r` inside one 32-month pattern, the walk yields a month
index `k` in 0..31 and a day remainder that places `r` exactly
`sumDaysOfMonths k` days past the pattern start, together with the
numeric bounds the round-trip proofs need. -/
def checkN1 (r : Int) : Bool :=
  match walkDayToMonth m_month_pattern r with
  | none => false
  | some km =>
    match sumDaysOfMonths km.1.toNat with
    | none => false
    | some s =>
      decide (s + km.2 = r ∧ 0 ≤ km.1 ∧ km.1 ≤ 31 ∧ 0 ≤ km.2
        ∧ (854 ≤ r → 29 ≤ km.1) ∧ (r ≤ 503 → km.1 ≤ 16))

/-- Per-month soundness checker for the NELSC month-pattern sums: the day
count of the first `u` months is defined, the day walk sends it back to
month `u` with remainder 0, and it satisfies the numeric bounds the
round-trip proofs need. -/
def checkN2 (u : Nat) : Bool :=
  match sumDaysOfMonths u with
  | none => false
  | some s =>
    decide (walkDayToMonth m_month_pattern s = some ((u : Int), 0)
      ∧ 0 ≤ s ∧ s ≤ 917 ∧ (29 ≤ u → 854 ≤ s) ∧ (u ≤ 16 → s ≤ 469))

/-- Per-residue soundness checker for the NELSC month-to-year walk within
one 11-year span. -/
def checkN3 (t : Int) : Bool :=
  match walkMonthToYear m_year_span t with
  | none => false
  | some km =>
    match sumMonthsOfYears km.1.toNat with
    | none => false
    | some s =>
      decide (s + km.2 = t ∧ 0 ≤ km.1 ∧ km.1 ≤ 10 ∧ 0 ≤ km.2
        ∧ (37 ≤ t → 3 ≤ km.1) ∧ (t ≤ 86 → km.1 ≤ 6))

/-- Per-year soundness checker for the NELSC span-pattern sums. -/
def checkN4 (j : Nat) : Bool :=
  match sumMonthsOfYears j with
  | none => false
  | some s =>
    decide (walkMonthToYear m_year_span s = some ((j : Int), 0)
      ∧ 0 ≤ s ∧ s ≤ 124 ∧ (3 ≤ j → 37 ≤ s) ∧ (j ≤ 6 → s ≤ 74))

/-- Per-day soundness checker for the Gregorian month walk: for a
day-in-year `d` in 0..365, the walk yields a March-based month index
`mk` in 0..11 and a day remainder placing `d` exactly `sumMonthLens mk`
days past the year start, together with the bounds the round-trip proofs
need. -/
def checkG1 (d : Int) : Bool :=
  match offsMonthWalk m_pattern d with
  | none => false
  | some km =>
    match sumMonthLens km.1.toNat, monthLength km.1 with
    | some s, some L =>
      decide (s + km.2 = d ∧ 0 ≤ km.1 ∧ km.1 ≤ 11 ∧ 0 ≤ km.2
        ∧ (km.1 ≤ 10 → km.2 < L)
        ∧ (km.1 = 11 → km.2 ≤ 28 ∧ (d ≤ 364 → km.2 ≤ 27))
        ∧ (d ≤ 305 → km.1 ≤ 9))
    | _, _ => false

/-- Per-month soundness checker for the Gregorian month table: day count
and length of each March-based month, with their bounds. -/
def checkG2 (mk : Nat) : Bool :=
  match sumMonthLens mk, monthLength (mk : Int) with
  | some s, some L =>
    decide (0 ≤ s ∧ 0 ≤ L ∧ L ≤ 31 ∧ s + L ≤ 337
      ∧ (L = 0 ↔ mk = 11) ∧ (mk = 11 → s = 337))
  | _, _ => false

/-- Per-(month, day) soundness checker for walking back to a month start:
the walk sends `sumMonthLens mk + dom` to `(mk, dom)` whenever `dom` lies
inside month `mk` (the variable month taken at its longest). -/
def checkG3 (mk dom : Nat) : Bool :=
  match sumMonthLens mk, monthLength (mk : Int) with
  | some s, some L =>
    decide (((mk ≤ 10 ∧ (dom : Int) < L) ∨ (mk = 11 ∧ dom ≤ 28)) →
      offsMonthWalk m_pattern (s + (dom : Int)) = some ((mk : Int), (dom : Int)))
  | _, _ => false

/-! ## Theorems -/

attribute [simp] MONTH_COUNT MONTH_OFFSET LONG_MONTH_LENGTH SHORT_MONTH_LENGTH
  LEAP_MONTH_LENGTH NONLEAP_MONTH_LENGTH QC_DAYS C_DAYS Q_DAYS Y_DAYS
  Y_LEAP_DAYS QC_C_COUNT C_Q_COUNT Q_Y_COUNT QC_YEARS C_YEARS Q_YEARS
  BASE_YEAR MAX_YEAR GRCAL_DAY_MIN GRCAL_DAY_MAX
  DAYS_PER_SHORT_MONTH DAYS_PER_LONG_MONTH MONTHS_PER_SHORT_YEAR
  MONTHS_PER_LONG_YEAR DAYS_PER_MONTH_PATTERN MONTH_PATTERN_LENGTH
  MONTHS_PER_YEAR_SPAN MONTHS_PER_YEAR_PATTERN YEAR_SPAN_LENGTH
  YEAR_PATTERN_LENGTH ABSOLUTE_DAY_OFFSET ABSOLUTE_MONTH_OFFSET
  DAY_UP_BOOST MONTH_UP_SINK MONTH_UP_BOOST YEAR_UP_SINK YEAR_DOWN_BOOST
  MONTH_DOWN_SINK MONTH_DOWN_BOOST DAY_DOWN_SINK
  NELSC_CYCLE_DAYMIN NELSC_CYCLE_DAYMAX NELSC_CYCLE_MONMIN
  NELSC_CYCLE_MONMAX NELSC_CYCLE_YEARMIN NELSC_CYCLE_YEARMAX
  UPAIR24_MAX BASE24_PAIR_MIN BASE24_PAIR_MAX BASE24_DIGIT_MAX

/-- C3: Gregorian boundary exactness: day offset 139750 decodes to
1582-10-15 and day offset 3214073 decodes to 9999-12-31. -/
theorem c3_gregorian_boundary_exactness :
    grcal_offsetToDate GRCAL_DAY_MIN = some (1582, 10, 15)
      ∧ grcal_offsetToDate GRCAL_DAY_MAX = some (9999, 12, 31) := by
  constructor <;> decide

/-- C4: NELSC boundary exactness: the least day is day 0 of the least
month, the least month starts at the least day, the greatest month starts
at day 174986 which is at most the greatest day, the least year starts at
the least month, and the greatest year starts at month 5914 (so 5914 is
the first month of year 479) and is a long year. -/
theorem c4_nelsc_boundary_exactness :
    nelsc_cycle_dayToMonth NELSC_CYCLE_DAYMIN = some (NELSC_CYCLE_MONMIN, 0)
  ∧ nelsc_cycle_monthToDay NELSC_CYCLE_MONMIN = some NELSC_CYCLE_DAYMIN
  ∧ nelsc_cycle_monthToDay NELSC_CYCLE_MONMAX = some 174986
  ∧ (174986 : Int) ≤ NELSC_CYCLE_DAYMAX
  ∧ nelsc_cycle_yearToMonth NELSC_CYCLE_YEARMIN = some NELSC_CYCLE_MONMIN
  ∧ nelsc_cycle_yearToMonth NELSC_CYCLE_YEARMAX = some 5914
  ∧ nelsc_cycle_monthToYear 5914 = some (NELSC_CYCLE_YEARMAX, 0)
  ∧ nelsc_cycle_isLongYear NELSC_CYCLE_YEARMAX = some true := by
  refine ⟨by decide, by decide, by decide, by decide, by decide, by decide,
    by decide, by decide⟩

/-- C8: pattern sum invariants: the 32-entry month pattern sums to 945
days, the 11-entry year-span pattern sums to 136 months, and 21 spans per
231-year pattern plus the forced-long extra month give 2857 months. -/
theorem c8_pattern_sums :
    (m_month_pattern.map (fun c =>
        match charToBool c with
        | some true => DAYS_PER_LONG_MONTH
        | _ => DAYS_PER_SHORT_MONTH)).sum = DAYS_PER_MONTH_PATTERN
  ∧ m_month_pattern.length = MONTH_PATTERN_LENGTH.toNat
  ∧ sumDaysOfMonths MONTH_PATTERN_LENGTH.toNat = some DAYS_PER_MONTH_PATTERN
  ∧ (m_year_span.map (fun c =>
        match charToBool c with
        | some true => MONTHS_PER_LONG_YEAR
        | _ => MONTHS_PER_SHORT_YEAR)).sum = MONTHS_PER_YEAR_SPAN
  ∧ m_year_span.length = YEAR_SPAN_LENGTH.toNat
  ∧ sumMonthsOfYears YEAR_SPAN_LENGTH.toNat = some MONTHS_PER_YEAR_SPAN
  ∧ 21 * MONTHS_PER_YEAR_SPAN + 1 = MONTHS_PER_YEAR_PATTERN
  ∧ YEAR_PATTERN_LENGTH = 21 * YEAR_SPAN_LENGTH := by
  refine ⟨by decide, by decide, by decide, by decide, by decide, by decide,
    by decide, by decide⟩

/-- C6: the leap-year predicate returns `some true` for a year `y ≥ 1`
exactly when `y` is divisible by 400, or by 4 but not by 100; it answers
(does not fault) on every `y ≥ 1`, gives the documented values on 1600,
1700, 1900, 2000 and 2024, and faults (returns `none`, modelling the
process abort) for every `y < 1`. -/
theorem c6_leap_year_predicate :
    (∀ y : Int, 1 ≤ y →
        (isLeapYear y = some true ↔ (y % 400 = 0 ∨ (y % 4 = 0 ∧ y % 100 ≠ 0)))
          ∧ (isLeapYear y).isSome = true)
  ∧ isLeapYear 1600 = some true
  ∧ isLeapYear 2000 = some true
  ∧ isLeapYear 2024 = some true
  ∧ isLeapYear 1700 = some false
  ∧ isLeapYear 1900 = some false
  ∧ (∀ y : Int, y < 1 → isLeapYear y = none) := by
  refine ⟨?_, by decide, by decide, by decide, by decide, by decide, ?_⟩
  · intro y hy
    unfold isLeapYear
    rw [if_neg (by omega)]
    constructor
    · constructor
      · intro h
        by_contra hc
        push_neg at hc
        simp only [ne_eq] at h
        split_ifs at h with h1 h2 <;> simp_all
      · intro h
        simp only [ne_eq]
        rcases h with h | h
        · split_ifs <;> simp_all
        · split_ifs <;> simp_all
    · simp
  · intro y hy
    unfold isLeapYear
    rw [if_pos (by omega)]

/-- C6 witness: the characterization applied at year 2024 and the fault
case applied at year 0. -/
theorem c6_leap_year_predicate_witness :
    ((isLeapYear 2024 = some true
        ↔ ((2024 : Int) % 400 = 0
            ∨ ((2024 : Int) % 4 = 0 ∧ (2024 : Int) % 100 ≠ 0)))
      ∧ (isLeapYear 2024).isSome = true)
  ∧ isLeapYear 0 = none :=
  ⟨c6_leap_year_predicate.1 2024 (by decide),
   c6_leap_year_predicate.2.2.2.2.2.2 0 (by decide)⟩

/-- C9 counterevidence: the code contradicts its own header documentation.
`strchr` counts the terminating NUL as part of the searched string, so
`base24_digitToInt` maps the NUL character to 24 (the index of the
terminator) instead of the documented -1, and consequently
`base24_pairToInt` accepts the one-digit string "0" (whose second read
character is the terminating NUL) and returns 24 instead of failing. -/
theorem c9_base24_null_digit_bug :
    base24_digitToInt nullChar = 24
  ∧ base24_pairToInt ['0'] = some 24
  ∧ strchrIdx nullChar m_base24 = some 24 := by
  refine ⟨by decide, by decide, by decide⟩

set_option maxRecDepth 4000 in
/-- Base-24 pair round trip checked for every value of the signed range,
indexed through `Fin 576`. -/
theorem b24_roundtrip_fin :
    ∀ k : Fin 576, base24_pairToInt (b24pp ((k : Int) - 96)) = some ((k : Int) - 96) := by
  decide

/-- C10: printing a value in -96..479 as a base-24 pair and parsing the
two printed characters back returns exactly the original value. -/
theorem c10_base24_pair_roundtrip (v : Int)
    (h1 : BASE24_PAIR_MIN ≤ v) (h2 : v ≤ BASE24_PAIR_MAX) :
    base24_pairToInt (b24pp v) = some v := by
  simp only [BASE24_PAIR_MIN, BASE24_PAIR_MAX] at h1 h2
  have hk : (v + 96).toNat < 576 := by omega
  have h := b24_roundtrip_fin ⟨(v + 96).toNat, hk⟩
  have he : ((⟨(v + 96).toNat, hk⟩ : Fin 576) : Int) - 96 = v := by
    simp only [Fin.val_mk]
    omega
  rw [he] at h
  exact h

/-- C10 witness: the round trip applied at the extreme value -96. -/
theorem c10_base24_pair_roundtrip_witness :
    base24_pairToInt (b24pp (-96)) = some (-96) :=
  c10_base24_pair_roundtrip (-96) (by decide) (by decide)

/-- C5: the forced-long super-pattern exception: whenever the biased month
offset hits the very last month of a 231-year pattern (remainder 2856 of
2857), `nelsc_cycle_monthToYear` answers with the pattern's year 230 and
month-within-year forced to 12; consequently every in-range year that is
the last year of a 231-year pattern is long according to
`nelsc_cycle_isLongYear`, even though the eleventh span-pattern entry is
short. -/
theorem c5_forced_long_superpattern :
    (∀ m : Int, NELSC_CYCLE_MONMIN ≤ m → m ≤ NELSC_CYCLE_MONMAX →
        (m + ABSOLUTE_MONTH_OFFSET + MONTH_UP_BOOST) % MONTHS_PER_YEAR_PATTERN
            = MONTHS_PER_YEAR_PATTERN - 1 →
        nelsc_cycle_monthToYear m
          = some ((m + ABSOLUTE_MONTH_OFFSET + MONTH_UP_BOOST)
                      / MONTHS_PER_YEAR_PATTERN * YEAR_PATTERN_LENGTH
                    + (YEAR_PATTERN_LENGTH - 1) - YEAR_UP_SINK,
                  MONTHS_PER_LONG_YEAR - 1))
  ∧ (∀ y : Int, NELSC_CYCLE_YEARMIN ≤ y → y ≤ NELSC_CYCLE_YEARMAX →
        (y + YEAR_UP_SINK) % YEAR_PATTERN_LENGTH = YEAR_PATTERN_LENGTH - 1 →
        nelsc_cycle_isLongYear y = some true)
  ∧ m_year_span.get? 10 = some 'S' := by
  refine ⟨?_, ?_, by decide⟩
  · intro m h1 h2 h3
    simp only [NELSC_CYCLE_MONMIN, NELSC_CYCLE_MONMAX, ABSOLUTE_MONTH_OFFSET,
      MONTH_UP_BOOST, MONTHS_PER_YEAR_PATTERN, YEAR_PATTERN_LENGTH,
      YEAR_UP_SINK, MONTHS_PER_LONG_YEAR] at h1 h2 h3 ⊢
    have hm : m = 1350 ∨ m = 4207 := by omega
    rcases hm with rfl | rfl <;> decide
  · intro y h1 h2 h3
    simp only [NELSC_CYCLE_YEARMIN, NELSC_CYCLE_YEARMAX, YEAR_UP_SINK,
      YEAR_PATTERN_LENGTH] at h1 h2 h3
    have hy : y = 109 ∨ y = 340 := by omega
    rcases hy with rfl | rfl <;> decide

/-- C5 witness: the forced-long case applied at month 1350 (the last
month of the middle 231-year pattern) and at year 109 (its last year). -/
theorem c5_forced_long_superpattern_witness :
    nelsc_cycle_monthToYear 1350
      = some (((1350 : Int) + ABSOLUTE_MONTH_OFFSET + MONTH_UP_BOOST)
                  / MONTHS_PER_YEAR_PATTERN * YEAR_PATTERN_LENGTH
                + (YEAR_PATTERN_LENGTH - 1) - YEAR_UP_SINK,
              MONTHS_PER_LONG_YEAR - 1)
  ∧ nelsc_cycle_isLongYear 109 = some true :=
  ⟨c5_forced_long_superpattern.1 1350 (by decide) (by decide) (by decide),
   c5_forced_long_superpattern.2.1 109 (by decide) (by decide) (by decide)⟩

set_option maxRecDepth 8000 in
set_option maxHeartbeats 1000000 in
/-- Every day remainder within one 32-month pattern passes the walk
checker. -/
theorem checkN1_all : ∀ r : Fin 945, checkN1 ((r : Nat) : Int) = true := by
  decide

/-- Every month index within one 32-month pattern passes the sum
checker. -/
theorem checkN2_all : ∀ u : Fin 32, checkN2 (u : Nat) = true := by
  decide

/-- Every month remainder within one 11-year span passes the walk
checker. -/
theorem checkN3_all : ∀ t : Fin 136, checkN3 ((t : Nat) : Int) = true := by
  decide

/-- Every year index within one 11-year span passes the sum checker. -/
theorem checkN4_all : ∀ j : Fin 11, checkN4 (j : Nat) = true := by
  decide

/-- Unpacking of the `checkN1` checker. -/
theorem checkN1_sound (r : Int) (h : checkN1 r = true) :
    ∃ k rr s, walkDayToMonth m_month_pattern r = some (k, rr)
      ∧ sumDaysOfMonths k.toNat = some s
      ∧ s + rr = r ∧ 0 ≤ k ∧ k ≤ 31 ∧ 0 ≤ rr
      ∧ (854 ≤ r → 29 ≤ k) ∧ (r ≤ 503 → k ≤ 16) := by
  unfold checkN1 at h
  split at h
  · exact absurd h (by simp)
  next km heq =>
    split at h
    · exact absurd h (by simp)
    next s heqs =>
      rw [decide_eq_true_eq] at h
      exact ⟨km.1, km.2, s, by rw [heq], heqs, h.1, h.2.1, h.2.2.1, h.2.2.2.1,
        h.2.2.2.2.1, h.2.2.2.2.2⟩

/-- Unpacking of the `checkN2` checker. -/
theorem checkN2_sound (u : Nat) (h : checkN2 u = true) :
    ∃ s, sumDaysOfMonths u = some s
      ∧ walkDayToMonth m_month_pattern s = some ((u : Int), 0)
      ∧ 0 ≤ s ∧ s ≤ 917 ∧ (29 ≤ u → 854 ≤ s) ∧ (u ≤ 16 → s ≤ 469) := by
  unfold checkN2 at h
  split at h
  · exact absurd h (by simp)
  next s heqs =>
    rw [decide_eq_true_eq] at h
    exact ⟨s, heqs, h.1, h.2.1, h.2.2.1, h.2.2.2.1, h.2.2.2.2⟩

/-- Unpacking of the `checkN3` checker. -/
theorem checkN3_sound (t : Int) (h : checkN3 t = true) :
    ∃ j u s, walkMonthToYear m_year_span t = some (j, u)
      ∧ sumMonthsOfYears j.toNat = some s
      ∧ s + u = t ∧ 0 ≤ j ∧ j ≤ 10 ∧ 0 ≤ u
      ∧ (37 ≤ t → 3 ≤ j) ∧ (t ≤ 86 → j ≤ 6) := by
  unfold checkN3 at h
  split at h
  · exact absurd h (by simp)
  next km heq =>
    split at h
    · exact absurd h (by simp)
    next s heqs =>
      rw [decide_eq_true_eq] at h
      exact ⟨km.1, km.2, s, by rw [heq], heqs, h.1, h.2.1, h.2.2.1, h.2.2.2.1,
        h.2.2.2.2.1, h.2.2.2.2.2⟩

/-- Unpacking of the `checkN4` checker. -/
theorem checkN4_sound (j : Nat) (h : checkN4 j = true) :
    ∃ s, sumMonthsOfYears j = some s
      ∧ walkMonthToYear m_year_span s = some ((j : Int), 0)
      ∧ 0 ≤ s ∧ s ≤ 124 ∧ (3 ≤ j → 37 ≤ s) ∧ (j ≤ 6 → s ≤ 74) := by
  unfold checkN4 at h
  split at h
  · exact absurd h (by simp)
  next s heqs =>
    rw [decide_eq_true_eq] at h
    exact ⟨s, heqs, h.1, h.2.1, h.2.2.1, h.2.2.2.1, h.2.2.2.2⟩

/-- Day-walk facts for an arbitrary in-pattern day remainder. -/
theorem nelsc_dayWalk_spec (r : Int) (h0 : 0 ≤ r) (h1 : r ≤ 944) :
    ∃ k rr s, walkDayToMonth m_month_pattern r = some (k, rr)
      ∧ sumDaysOfMonths k.toNat = some s
      ∧ s + rr = r ∧ 0 ≤ k ∧ k ≤ 31 ∧ 0 ≤ rr
      ∧ (854 ≤ r → 29 ≤ k) ∧ (r ≤ 503 → k ≤ 16) := by
  refine checkN1_sound r ?_
  have h := checkN1_all ⟨r.toNat, by omega⟩
  simpa [Int.toNat_of_nonneg h0] using h

/-- Month-sum facts for an arbitrary in-pattern month index. -/
theorem nelsc_monthSum_spec (u : Int) (h0 : 0 ≤ u) (h1 : u ≤ 31) :
    ∃ s, sumDaysOfMonths u.toNat = some s
      ∧ walkDayToMonth m_month_pattern s = some (u, 0)
      ∧ 0 ≤ s ∧ s ≤ 917 ∧ (29 ≤ u → 854 ≤ s) ∧ (u ≤ 16 → s ≤ 469) := by
  have h := checkN2_all ⟨u.toNat, by omega⟩
  simp only [Fin.val_mk] at h
  obtain ⟨s, hs, hw, hs0, hs917, h29, h16⟩ := checkN2_sound u.toNat h
  rw [Int.toNat_of_nonneg h0] at hw
  exact ⟨s, hs, hw, hs0, hs917, fun h => h29 (by omega), fun h => h16 (by omega)⟩

/-- Year-walk facts for an arbitrary in-span month remainder. -/
theorem nelsc_yearWalk_spec (t : Int) (h0 : 0 ≤ t) (h1 : t ≤ 135) :
    ∃ j u s, walkMonthToYear m_year_span t = some (j, u)
      ∧ sumMonthsOfYears j.toNat = some s
      ∧ s + u = t ∧ 0 ≤ j ∧ j ≤ 10 ∧ 0 ≤ u
      ∧ (37 ≤ t → 3 ≤ j) ∧ (t ≤ 86 → j ≤ 6) := by
  refine checkN3_sound t ?_
  have h := checkN3_all ⟨t.toNat, by omega⟩
  simpa [Int.toNat_of_nonneg h0] using h

/-- Span-sum facts for an arbitrary in-span year index. -/
theorem nelsc_spanSum_spec (j : Int) (h0 : 0 ≤ j) (h1 : j ≤ 10) :
    ∃ s, sumMonthsOfYears j.toNat = some s
      ∧ walkMonthToYear m_year_span s = some (j, 0)
      ∧ 0 ≤ s ∧ s ≤ 124 ∧ (3 ≤ j → 37 ≤ s) ∧ (j ≤ 6 → s ≤ 74) := by
  have h := checkN4_all ⟨j.toNat, by omega⟩
  simp only [Fin.val_mk] at h
  obtain ⟨s, hs, hw, hs0, hs124, h3, h6⟩ := checkN4_sound j.toNat h
  rw [Int.toNat_of_nonneg h0] at hw
  exact ⟨s, hs, hw, hs0, hs124, fun h => h3 (by omega), fun h => h6 (by omega)⟩

/-- Closed form of `nelsc_cycle_monthToDay`: if the boosted, re-origined
month offset decomposes as `32 * v + u` with `u` inside one pattern, the
result is `v` whole patterns plus the day count of the first `u` months,
un-boosted and re-origined. -/
theorem monthToDay_eq (m v u s : Int)
    (hm1 : -1197 ≤ m) (hm2 : m ≤ 5926)
    (hd : m + 10 + (if m + 10 < 0 then (1216 : Int) else 0) = 32 * v + u)
    (hu0 : 0 ≤ u) (hu31 : u ≤ 31)
    (hs : sumDaysOfMonths u.toNat = some s) :
    nelsc_cycle_monthToDay m
      = some (v * 945 + s - (if m + 10 < 0 then (35910 : Int) else 0) - 308) := by
  simp only [nelsc_cycle_monthToDay, NELSC_CYCLE_MONMIN, NELSC_CYCLE_MONMAX,
    ABSOLUTE_MONTH_OFFSET, MONTH_DOWN_BOOST, MONTH_UP_SINK,
    MONTH_PATTERN_LENGTH, DAYS_PER_MONTH_PATTERN, DAY_DOWN_SINK, DAY_UP_BOOST,
    ABSOLUTE_DAY_OFFSET]
  rw [if_neg (by omega)]
  by_cases hb : m + 10 < 0
  · rw [if_pos hb] at hd
    simp only [if_pos hb]
    rw [show m + 10 + 1216 = 32 * v + u from by omega]
    rw [show (32 * v + u) / 32 = v from by omega,
        show (32 * v + u) % 32 = u from by omega]
    split
    next heq => rw [hs] at heq; cases heq
    next s' heq =>
      rw [hs] at heq
      injection heq with hss
      subst hss
      simp only [Option.some.injEq] <;> omega
  · rw [if_neg hb] at hd
    simp only [if_neg hb]
    rw [show m + 10 = 32 * v + u from by omega]
    rw [show (32 * v + u) / 32 = v from by omega,
        show (32 * v + u) % 32 = u from by omega]
    split
    next heq => rw [hs] at heq; cases heq
    next s' heq =>
      rw [hs] at heq
      injection heq with hss
      subst hss
      simp only [Option.some.injEq] <;> omega

/-- Closed form of `nelsc_cycle_dayToMonth`: if the boosted, re-origined
day offset decomposes as `945 * q + r` with `r` inside one pattern, the
result is `q` whole patterns of months plus the walk's landing month, with
the walk's day remainder. -/
theorem dayToMonth_eq (d q r k rr : Int)
    (hd1 : -35364 ≤ d) (hd2 : d ≤ 175020)
    (hqr : d + 308 + (if d + 308 < 0 then (35910 : Int) else 0) = 945 * q + r)
    (hr0 : 0 ≤ r) (hr944 : r ≤ 944)
    (hw : walkDayToMonth m_month_pattern r = some (k, rr)) :
    nelsc_cycle_dayToMonth d
      = some (q * 32 + k - (if d + 308 < 0 then (1216 : Int) else 0) - 10, rr) := by
  simp only [nelsc_cycle_dayToMonth, NELSC_CYCLE_DAYMIN, NELSC_CYCLE_DAYMAX,
    ABSOLUTE_DAY_OFFSET, DAY_UP_BOOST, DAYS_PER_MONTH_PATTERN,
    MONTH_PATTERN_LENGTH, MONTH_UP_SINK, ABSOLUTE_MONTH_OFFSET]
  rw [if_neg (by omega)]
  by_cases hb : d + 308 < 0
  · rw [if_pos hb] at hqr
    simp only [if_pos hb]
    rw [show d + 308 + 35910 = 945 * q + r from by omega]
    rw [show (945 * q + r) / 945 = q from by omega,
        show (945 * q + r) % 945 = r from by omega]
    split
    next heq => rw [hw] at heq; cases heq
    next km heq =>
      rw [hw] at heq
      injection heq with hkm
      subst hkm
      simp only [Option.some.injEq, Prod.mk.injEq, and_true, true_and] <;> omega
  · rw [if_neg hb] at hqr
    simp only [if_neg hb]
    rw [show d + 308 = 945 * q + r from by omega]
    rw [show (945 * q + r) / 945 = q from by omega,
        show (945 * q + r) % 945 = r from by omega]
    split
    next heq => rw [hw] at heq; cases heq
    next km heq =>
      rw [hw] at heq
      injection heq with hkm
      subst hkm
      simp only [Option.some.injEq, Prod.mk.injEq, and_true, true_and] <;> omega

/-- Closed form of `nelsc_cycle_yearToMonth`: if the boosted year
decomposes as `231 * a + b` with `b = 11 * s + j` inside one super-pattern
and span, the result counts `a` super-patterns, `s` spans and the span-sum
of the first `j` years, un-boosted and re-origined. -/
theorem yearToMonth_eq (y a b s j S : Int)
    (hy1 : -96 ≤ y) (hy2 : y ≤ 479)
    (hab : y + 121 = 231 * a + b) (hb0 : 0 ≤ b) (hb230 : b ≤ 230)
    (hsj : b = 11 * s + j) (hj0 : 0 ≤ j) (hj10 : j ≤ 10)
    (hS : sumMonthsOfYears j.toNat = some S) :
    nelsc_cycle_yearToMonth y = some (a * 2857 + s * 136 + S - 1496 - 10) := by
  simp only [nelsc_cycle_yearToMonth, NELSC_CYCLE_YEARMIN, NELSC_CYCLE_YEARMAX,
    YEAR_DOWN_BOOST, YEAR_UP_SINK, YEAR_PATTERN_LENGTH,
    MONTHS_PER_YEAR_PATTERN, YEAR_SPAN_LENGTH, MONTHS_PER_YEAR_SPAN,
    MONTH_DOWN_SINK, MONTH_UP_BOOST, ABSOLUTE_MONTH_OFFSET]
  rw [if_neg (by omega)]
  rw [show y + 121 = 231 * a + b from by omega]
  rw [show (231 * a + b) / 231 = a from by omega,
      show (231 * a + b) % 231 = b from by omega]
  rw [show b / 11 = s from by omega, show b % 11 = j from by omega]
  split
  next heq => rw [hS] at heq; cases heq
  next s' heq =>
    rw [hS] at heq
    injection heq with hss
    subst hss
    simp only [Option.some.injEq] <;> omega

/-- Closed form of `nelsc_cycle_monthToYear` away from the forced-long
special case: if the boosted month offset decomposes as `2857 * q + r1`
with `r1 ≤ 2855` and `r1 = 136 * s + t` inside one span, the result
counts `q` super-patterns, `s` spans and the span walk's landing year,
with the walk's month remainder. -/
theorem monthToYear_eq (m q r1 s t j u : Int)
    (hm1 : -1197 ≤ m) (hm2 : m ≤ 5926)
    (hqr : m + 10 + 1496 = 2857 * q + r1)
    (hr0 : 0 ≤ r1) (hr2855 : r1 ≤ 2855)
    (hst : r1 = 136 * s + t) (ht0 : 0 ≤ t) (ht135 : t ≤ 135)
    (hw : walkMonthToYear m_year_span t = some (j, u)) :
    nelsc_cycle_monthToYear m = some (q * 231 + s * 11 + j - 121, u) := by
  simp only [nelsc_cycle_monthToYear, NELSC_CYCLE_MONMIN, NELSC_CYCLE_MONMAX,
    ABSOLUTE_MONTH_OFFSET, MONTH_UP_BOOST, MONTHS_PER_YEAR_PATTERN,
    YEAR_PATTERN_LENGTH, MONTHS_PER_YEAR_SPAN, YEAR_SPAN_LENGTH,
    MONTHS_PER_LONG_YEAR, YEAR_UP_SINK]
  rw [if_neg (by omega)]
  rw [show m + 10 + 1496 = 2857 * q + r1 from by omega]
  rw [show (2857 * q + r1) / 2857 = q from by omega,
      show (2857 * q + r1) % 2857 = r1 from by omega]
  simp only [if_neg (show ¬(r1 = 2857 - 1) from by omega)]
  rw [show r1 / 136 = s from by omega, show r1 % 136 = t from by omega]
  split
  next heq => rw [hw] at heq; cases heq
  next km heq =>
    rw [hw] at heq
    injection heq with hkm
    subst hkm
    simp only [Option.some.injEq, Prod.mk.injEq, and_true, true_and] <;> omega

/-- Closed form of `nelsc_cycle_monthToYear` at the forced-long special
case: the very last month of a 231-year pattern resolves to the pattern's
year 230 with month-within-year 12. -/
theorem monthToYear_force13_eq (m q : Int)
    (hm1 : -1197 ≤ m) (hm2 : m ≤ 5926)
    (hqr : m + 10 + 1496 = 2857 * q + 2856) :
    nelsc_cycle_monthToYear m = some (q * 231 + 230 - 121, 12) := by
  simp only [nelsc_cycle_monthToYear, NELSC_CYCLE_MONMIN, NELSC_CYCLE_MONMAX,
    ABSOLUTE_MONTH_OFFSET, MONTH_UP_BOOST, MONTHS_PER_YEAR_PATTERN,
    YEAR_PATTERN_LENGTH, MONTHS_PER_YEAR_SPAN, YEAR_SPAN_LENGTH,
    MONTHS_PER_LONG_YEAR, YEAR_UP_SINK]
  rw [if_neg (by omega)]
  rw [show m + 10 + 1496 = 2857 * q + 2856 from by omega]
  rw [show (2857 * q + 2856) / 2857 = q from by omega,
      show (2857 * q + 2856) % 2857 = 2856 from by omega]
  simp only [if_pos (show (2856 : Int) = 2857 - 1 from by norm_num)]
  rw [show walkMonthToYear m_year_span ((0 : Int) % 136) = some (0, 0) from by decide]
  simp only [Option.some.injEq, Prod.mk.injEq, and_true, true_and] <;> omega

/-- Round trip month-to-day-to-first-day: converting a month offset to its
first day and back yields the same month with day-in-month offset 0. -/
theorem nelsc_month_day_roundtrip (m : Int)
    (h1 : NELSC_CYCLE_MONMIN ≤ m) (h2 : m ≤ NELSC_CYCLE_MONMAX) :
    ∃ dd, nelsc_cycle_monthToDay m = some dd
      ∧ nelsc_cycle_dayToMonth dd = some (m, 0) := by
  simp only [NELSC_CYCLE_MONMIN, NELSC_CYCLE_MONMAX] at h1 h2
  by_cases hb : m + 10 < 0
  · obtain ⟨s, hs, hw, hs0, hs917, h29, h16⟩ :=
      nelsc_monthSum_spec ((m + 10 + 1216) % 32) (by omega) (by omega)
    have hd : m + 10 + (if m + 10 < 0 then (1216 : Int) else 0)
        = 32 * ((m + 10 + 1216) / 32) + (m + 10 + 1216) % 32 := by
      rw [if_pos hb]; omega
    have hmd := monthToDay_eq m ((m + 10 + 1216) / 32) ((m + 10 + 1216) % 32) s
      h1 h2 hd (by omega) (by omega) hs
    rw [if_pos hb] at hmd
    refine ⟨_, hmd, ?_⟩
    have hDb : (m + 10 + 1216) / 32 * 945 + s - 35910 - 308 + 308 < 0 := by omega
    have hqr : ((m + 10 + 1216) / 32 * 945 + s - 35910 - 308) + 308
        + (if ((m + 10 + 1216) / 32 * 945 + s - 35910 - 308) + 308 < 0
            then (35910 : Int) else 0)
        = 945 * ((m + 10 + 1216) / 32) + s := by
      rw [if_pos hDb]; omega
    have hdm := dayToMonth_eq ((m + 10 + 1216) / 32 * 945 + s - 35910 - 308)
      ((m + 10 + 1216) / 32) s ((m + 10 + 1216) % 32) 0
      (by omega) (by omega) hqr (by omega) (by omega) hw
    rw [if_pos hDb] at hdm
    rw [hdm]
    simp only [Option.some.injEq, Prod.mk.injEq, and_true, true_and] <;> omega
  · obtain ⟨s, hs, hw, hs0, hs917, h29, h16⟩ :=
      nelsc_monthSum_spec ((m + 10) % 32) (by omega) (by omega)
    have hd : m + 10 + (if m + 10 < 0 then (1216 : Int) else 0)
        = 32 * ((m + 10) / 32) + (m + 10) % 32 := by
      rw [if_neg hb]; omega
    have hmd := monthToDay_eq m ((m + 10) / 32) ((m + 10) % 32) s
      h1 h2 hd (by omega) (by omega) hs
    rw [if_neg hb] at hmd
    simp only [sub_zero] at hmd
    refine ⟨_, hmd, ?_⟩
    have hDb : ¬ ((m + 10) / 32 * 945 + s - 308 + 308 < 0) := by omega
    have hqr : ((m + 10) / 32 * 945 + s - 308) + 308
        + (if ((m + 10) / 32 * 945 + s - 308) + 308 < 0 then (35910 : Int) else 0)
        = 945 * ((m + 10) / 32) + s := by
      rw [if_neg hDb]; omega
    have hdm := dayToMonth_eq ((m + 10) / 32 * 945 + s - 308)
      ((m + 10) / 32) s ((m + 10) % 32) 0
      (by omega) (by omega) hqr (by omega) (by omega) hw
    rw [if_neg hDb] at hdm
    simp only [sub_zero] at hdm
    rw [hdm]
    simp only [Option.some.injEq, Prod.mk.injEq, and_true, true_and] <;> omega

/-- Round trip day-to-month-to-day: converting a day offset to (month,
day-in-month) and mapping the month back to its first day recovers the
original day as first day plus offset. -/
theorem nelsc_day_month_roundtrip (d : Int)
    (h1 : NELSC_CYCLE_DAYMIN ≤ d) (h2 : d ≤ NELSC_CYCLE_DAYMAX) :
    ∃ mo off, nelsc_cycle_dayToMonth d = some (mo, off)
      ∧ ∃ fd, nelsc_cycle_monthToDay mo = some fd ∧ fd + off = d := by
  simp only [NELSC_CYCLE_DAYMIN, NELSC_CYCLE_DAYMAX] at h1 h2
  by_cases hb : d + 308 < 0
  · obtain ⟨k, rr, s, hw, hs, hsum, hk0, hk31, hrr0, h854, h503⟩ :=
      nelsc_dayWalk_spec ((d + 308 + 35910) % 945) (by omega) (by omega)
    have hqr : d + 308 + (if d + 308 < 0 then (35910 : Int) else 0)
        = 945 * ((d + 308 + 35910) / 945) + (d + 308 + 35910) % 945 := by
      rw [if_pos hb]; omega
    have hdm := dayToMonth_eq d ((d + 308 + 35910) / 945) ((d + 308 + 35910) % 945)
      k rr (by omega) (by omega) hqr (by omega) (by omega) hw
    rw [if_pos hb] at hdm
    refine ⟨_, _, hdm, ?_⟩
    have hmb : (d + 308 + 35910) / 945 * 32 + k - 1216 - 10 + 10 < 0 := by omega
    have hd2 : ((d + 308 + 35910) / 945 * 32 + k - 1216 - 10) + 10
        + (if ((d + 308 + 35910) / 945 * 32 + k - 1216 - 10) + 10 < 0
            then (1216 : Int) else 0)
        = 32 * ((d + 308 + 35910) / 945) + k := by
      rw [if_pos hmb]; omega
    have hmd := monthToDay_eq ((d + 308 + 35910) / 945 * 32 + k - 1216 - 10)
      ((d + 308 + 35910) / 945) k s (by omega) (by omega) hd2 hk0 hk31 hs
    rw [if_pos hmb] at hmd
    exact ⟨_, hmd, by omega⟩
  · obtain ⟨k, rr, s, hw, hs, hsum, hk0, hk31, hrr0, h854, h503⟩ :=
      nelsc_dayWalk_spec ((d + 308) % 945) (by omega) (by omega)
    have hqr : d + 308 + (if d + 308 < 0 then (35910 : Int) else 0)
        = 945 * ((d + 308) / 945) + (d + 308) % 945 := by
      rw [if_neg hb]; omega
    have hdm := dayToMonth_eq d ((d + 308) / 945) ((d + 308) % 945)
      k rr (by omega) (by omega) hqr (by omega) (by omega) hw
    rw [if_neg hb] at hdm
    simp only [sub_zero] at hdm
    refine ⟨_, _, hdm, ?_⟩
    have hmb : ¬ ((d + 308) / 945 * 32 + k - 10 + 10 < 0) := by omega
    have hd2 : ((d + 308) / 945 * 32 + k - 10) + 10
        + (if ((d + 308) / 945 * 32 + k - 10) + 10 < 0 then (1216 : Int) else 0)
        = 32 * ((d + 308) / 945) + k := by
      rw [if_neg hmb]; omega
    have hmd := monthToDay_eq ((d + 308) / 945 * 32 + k - 10)
      ((d + 308) / 945) k s (by omega) (by omega) hd2 hk0 hk31 hs
    rw [if_neg hmb] at hmd
    simp only [sub_zero] at hmd
    exact ⟨_, hmd, by omega⟩

/-- Round trip year-to-month-to-year: converting a year to its first month
and back yields the same year with month-in-year offset 0. -/
theorem nelsc_year_month_roundtrip (y : Int)
    (h1 : NELSC_CYCLE_YEARMIN ≤ y) (h2 : y ≤ NELSC_CYCLE_YEARMAX) :
    ∃ mo, nelsc_cycle_yearToMonth y = some mo
      ∧ nelsc_cycle_monthToYear mo = some (y, 0) := by
  simp only [NELSC_CYCLE_YEARMIN, NELSC_CYCLE_YEARMAX] at h1 h2
  obtain ⟨S, hS, hw, hS0, hS124, h3, h6⟩ :=
    nelsc_spanSum_spec ((y + 121) % 231 % 11) (by omega) (by omega)
  have hy2m := yearToMonth_eq y ((y + 121) / 231) ((y + 121) % 231)
    ((y + 121) % 231 / 11) ((y + 121) % 231 % 11) S
    h1 h2 (by omega) (by omega) (by omega) (by omega) (by omega) (by omega) hS
  refine ⟨_, hy2m, ?_⟩
  have hm2y := monthToYear_eq
    ((y + 121) / 231 * 2857 + (y + 121) % 231 / 11 * 136 + S - 1496 - 10)
    ((y + 121) / 231) ((y + 121) % 231 / 11 * 136 + S)
    ((y + 121) % 231 / 11) S ((y + 121) % 231 % 11) 0
    (by omega) (by omega) (by omega) (by omega) (by omega) (by omega)
    (by omega) (by omega) hw
  rw [hm2y]
  simp only [Option.some.injEq, Prod.mk.injEq, and_true, true_and] <;> omega

/-- Round trip month-to-year-to-month: converting a month offset to
(year, month-in-year) and mapping the year back to its first month
recovers the original month as first month plus offset. -/
theorem nelsc_month_year_roundtrip (m : Int)
    (h1 : NELSC_CYCLE_MONMIN ≤ m) (h2 : m ≤ NELSC_CYCLE_MONMAX) :
    ∃ yr off, nelsc_cycle_monthToYear m = some (yr, off)
      ∧ ∃ fm, nelsc_cycle_yearToMonth yr = some fm ∧ fm + off = m := by
  simp only [NELSC_CYCLE_MONMIN, NELSC_CYCLE_MONMAX] at h1 h2
  by_cases hsp : (m + 1506) % 2857 = 2856
  · have hm2y := monthToYear_force13_eq m ((m + 1506) / 2857) h1 h2 (by omega)
    refine ⟨_, _, hm2y, ?_⟩
    have hS : sumMonthsOfYears (10 : Int).toNat = some 124 := by decide
    have hy2m := yearToMonth_eq ((m + 1506) / 2857 * 231 + 230 - 121)
      ((m + 1506) / 2857) 230 20 10 124
      (by omega) (by omega) (by omega) (by omega) (by omega) (by omega)
      (by omega) (by omega) hS
    exact ⟨_, hy2m, by omega⟩
  · obtain ⟨j, u, S, hw, hS, hsum, hj0, hj10, hu0, h37, h86⟩ :=
      nelsc_yearWalk_spec ((m + 1506) % 2857 % 136) (by omega) (by omega)
    have hm2y := monthToYear_eq m ((m + 1506) / 2857) ((m + 1506) % 2857)
      ((m + 1506) % 2857 / 136) ((m + 1506) % 2857 % 136) j u
      h1 h2 (by omega) (by omega) (by omega) (by omega) (by omega) (by omega) hw
    refine ⟨_, _, hm2y, ?_⟩
    have hy2m := yearToMonth_eq
      ((m + 1506) / 2857 * 231 + (m + 1506) % 2857 / 136 * 11 + j - 121)
      ((m + 1506) / 2857) ((m + 1506) % 2857 / 136 * 11 + j)
      ((m + 1506) % 2857 / 136) j S
      (by omega) (by omega) (by omega) (by omega) (by omega) (by omega)
      hj0 hj10 hS
    exact ⟨_, hy2m, by omega⟩

/-- C2: the NELSC layer bijections.  For every in-range month offset,
going down to its first day and back up gives the month with day offset 0;
for every in-range day offset, going up to (month, day-in-month) and back
down reconstructs the day; and symmetrically for the month-and-year
layer. -/
theorem c2_nelsc_layer_bijections :
    (∀ m : Int, NELSC_CYCLE_MONMIN ≤ m → m ≤ NELSC_CYCLE_MONMAX →
        ∃ dd, nelsc_cycle_monthToDay m = some dd
          ∧ nelsc_cycle_dayToMonth dd = some (m, 0))
  ∧ (∀ d : Int, NELSC_CYCLE_DAYMIN ≤ d → d ≤ NELSC_CYCLE_DAYMAX →
        ∃ mo off, nelsc_cycle_dayToMonth d = some (mo, off)
          ∧ ∃ fd, nelsc_cycle_monthToDay mo = some fd ∧ fd + off = d)
  ∧ (∀ y : Int, NELSC_CYCLE_YEARMIN ≤ y → y ≤ NELSC_CYCLE_YEARMAX →
        ∃ mo, nelsc_cycle_yearToMonth y = some mo
          ∧ nelsc_cycle_monthToYear mo = some (y, 0))
  ∧ (∀ m : Int, NELSC_CYCLE_MONMIN ≤ m → m ≤ NELSC_CYCLE_MONMAX →
        ∃ yr off, nelsc_cycle_monthToYear m = some (yr, off)
          ∧ ∃ fm, nelsc_cycle_yearToMonth yr = some fm ∧ fm + off = m) :=
  ⟨nelsc_month_day_roundtrip, nelsc_day_month_roundtrip,
   nelsc_year_month_roundtrip, nelsc_month_year_roundtrip⟩

/-- C2 witness: the four round trips applied at the boundary inputs
month -1197, day 175020, year 479 and month 5926. -/
theorem c2_nelsc_layer_bijections_witness :
    (∃ dd, nelsc_cycle_monthToDay (-1197) = some dd
      ∧ nelsc_cycle_dayToMonth dd = some (-1197, 0))
  ∧ (∃ mo off, nelsc_cycle_dayToMonth 175020 = some (mo, off)
      ∧ ∃ fd, nelsc_cycle_monthToDay mo = some fd ∧ fd + off = 175020)
  ∧ (∃ mo, nelsc_cycle_yearToMonth 479 = some mo
      ∧ nelsc_cycle_monthToYear mo = some (479, 0))
  ∧ (∃ yr off, nelsc_cycle_monthToYear 5926 = some (yr, off)
      ∧ ∃ fm, nelsc_cycle_yearToMonth yr = some fm ∧ fm + off = 5926) :=
  ⟨c2_nelsc_layer_bijections.1 (-1197) (by decide) (by decide),
   c2_nelsc_layer_bijections.2.1 175020 (by decide) (by decide),
   c2_nelsc_layer_bijections.2.2.1 479 (by decide) (by decide),
   c2_nelsc_layer_bijections.2.2.2 5926 (by decide) (by decide)⟩

set_option maxRecDepth 4000 in
/-- Every day-in-year in 0..365 passes the Gregorian walk checker. -/
theorem checkG1_all : ∀ d : Fin 366, checkG1 ((d : Nat) : Int) = true := by
  decide

/-- Every March-based month index passes the table checker. -/
theorem checkG2_all : ∀ mk : Fin 12, checkG2 (mk : Nat) = true := by
  decide

/-- Every (month, day-in-month) pair passes the walk-back checker. -/
theorem checkG3_all : ∀ mk : Fin 12, ∀ dom : Fin 31, checkG3 (mk : Nat) (dom : Nat) = true := by
  decide

/-- Gregorian walk facts for an arbitrary day-in-year. -/
theorem greg_walk_spec (d : Int) (h0 : 0 ≤ d) (h1 : d ≤ 365) :
    ∃ mk rr s L, offsMonthWalk m_pattern d = some (mk, rr)
      ∧ sumMonthLens mk.toNat = some s ∧ monthLength mk = some L
      ∧ s + rr = d ∧ 0 ≤ mk ∧ mk ≤ 11 ∧ 0 ≤ rr
      ∧ (mk ≤ 10 → rr < L)
      ∧ (mk = 11 → rr ≤ 28 ∧ (d ≤ 364 → rr ≤ 27))
      ∧ (d ≤ 305 → mk ≤ 9) := by
  have h := checkG1_all ⟨d.toNat, by omega⟩
  rw [Fin.val_mk, Int.toNat_of_nonneg h0] at h
  unfold checkG1 at h
  split at h
  · exact absurd h (by simp)
  next km heq =>
    split at h
    next s L heqs heqL =>
      rw [decide_eq_true_eq] at h
      exact ⟨km.1, km.2, s, L, by rw [heq], heqs, heqL, h.1, h.2.1, h.2.2.1,
        h.2.2.2.1, h.2.2.2.2.1, h.2.2.2.2.2.1, h.2.2.2.2.2.2⟩
    next => exact absurd h (by simp)

/-- Gregorian month-table facts for an arbitrary March-based month. -/
theorem greg_monthTable_spec (mk : Int) (h0 : 0 ≤ mk) (h1 : mk ≤ 11) :
    ∃ s L, sumMonthLens mk.toNat = some s ∧ monthLength mk = some L
      ∧ 0 ≤ s ∧ 0 ≤ L ∧ L ≤ 31 ∧ s + L ≤ 337
      ∧ (L = 0 ↔ mk = 11) ∧ (mk = 11 → s = 337) := by
  have h := checkG2_all ⟨mk.toNat, by omega⟩
  rw [Fin.val_mk] at h
  unfold checkG2 at h
  split at h
  next s L heqs heqL =>
    rw [decide_eq_true_eq] at h
    rw [Int.toNat_of_nonneg h0] at heqL
    refine ⟨s, L, heqs, heqL, h.1, h.2.1, h.2.2.1, h.2.2.2.1, ?_, ?_⟩
    · constructor
      · intro hL
        have := h.2.2.2.2.1.mp hL
        omega
      · intro hmk
        exact h.2.2.2.2.1.mpr (by omega)
    · intro hmk
      exact h.2.2.2.2.2 (by omega)
  next => exact absurd h (by simp)

/-- Walking from the start of a March-based month plus an in-month day
offset lands exactly on that month and offset. -/
theorem greg_walk_back (mk dom s L : Int) (h0 : 0 ≤ mk) (h1 : mk ≤ 11)
    (hd0 : 0 ≤ dom)
    (hs : sumMonthLens mk.toNat = some s) (hL : monthLength mk = some L)
    (hguard : (mk ≤ 10 ∧ dom < L) ∨ (mk = 11 ∧ dom ≤ 28)) :
    offsMonthWalk m_pattern (s + dom) = some (mk, dom) := by
  have hdom31 : dom ≤ 30 := by
    rcases hguard with ⟨hm, hd⟩ | ⟨hm, hd⟩
    · obtain ⟨s', L', _, hL', _, _, hL31, _, _, _⟩ := greg_monthTable_spec mk h0 h1
      rw [hL] at hL'
      injection hL' with hLL
      omega
    · omega
  have h := checkG3_all ⟨mk.toNat, by omega⟩ ⟨dom.toNat, by omega⟩
  rw [Fin.val_mk, Fin.val_mk] at h
  unfold checkG3 at h
  split at h
  next s' L' heqs heqL =>
    rw [decide_eq_true_eq] at h
    rw [Int.toNat_of_nonneg h0] at heqL
    rw [hs] at heqs
    injection heqs with hss
    rw [hL] at heqL
    injection heqL with hLL
    have hres := h (by
      rcases hguard with ⟨hm, hd⟩ | ⟨hm, hd⟩
      · exact Or.inl ⟨by omega, by omega⟩
      · exact Or.inr ⟨by omega, by omega⟩)
    rw [Int.toNat_of_nonneg h0, Int.toNat_of_nonneg hd0] at hres
    rw [← hss] at hres
    exact hres
  next => exact absurd h (by simp)


/-- Closed form of the quad-century / century / quad-year / year day
summation: it equals `365 y + y/4 - y/100 + y/400` on the year offset. -/
theorem yearStartDays_closed (Y : Int) :
    yearStartDays Y + (Y - 1200) / 100
      = 365 * (Y - 1200) + (Y - 1200) / 4 + (Y - 1200) / 400 := by
  simp only [yearStartDays, QC_YEARS, QC_DAYS, C_YEARS, C_DAYS, Q_YEARS,
    Q_DAYS, Y_DAYS, BASE_YEAR]
  omega

/-- Forward correctness of `grcalYearSplit`: for an offset in range it
produces a March-based year, presented through its quad-century / century
/ quad-year / year components, and a day-in-year recomposing to the
offset; the day-in-year is 365 only when the following January-based year
is leap. -/
theorem grcalYearSplit_spec (offs : Int) (h0 : 0 ≤ offs) (h1 : offs ≤ 3214073) :
    ∃ A B C D d, grcalYearSplit offs = (400 * A + 100 * B + 4 * C + D + 1200, d)
      ∧ offs = 146097 * A + 36524 * B + 1461 * C + 365 * D + d
      ∧ 0 ≤ A ∧ A ≤ 21 ∧ 0 ≤ B ∧ B ≤ 3 ∧ 0 ≤ C ∧ C ≤ 24 ∧ 0 ≤ D ∧ D ≤ 3
      ∧ 0 ≤ d ∧ d ≤ 365
      ∧ (d = 365 →
          ((400 * A + 100 * B + 4 * C + D + 1201) % 4 = 0
              ∧ (400 * A + 100 * B + 4 * C + D + 1201) % 100 ≠ 0)
            ∨ (400 * A + 100 * B + 4 * C + D + 1201) % 400 = 0) := by
  simp only [grcalYearSplit, QC_DAYS, C_DAYS, Q_DAYS, Y_DAYS,
    QC_C_COUNT, C_Q_COUNT, Q_Y_COUNT, Y_LEAP_DAYS, QC_YEARS, C_YEARS, Q_YEARS,
    BASE_YEAR]
  by_cases hc : offs % 146097 / 36524 = 4
  · simp only [if_pos hc]
    simp only [if_neg (show ¬((4 : Int) - 1 = 4) from by omega)]
    refine ⟨offs / 146097, 3, 24, 3, 365, ?_, by omega, by omega, by omega,
      by omega, by omega, by omega, by omega, by omega, by omega, by omega,
      by omega, by intro hd; omega⟩
    simp only [Prod.mk.injEq]
    constructor <;> first | trivial | omega
  · simp only [if_neg hc]
    by_cases hy : offs % 146097 % 36524 % 1461 / 365 = 4
    · simp only [if_pos hy]
      refine ⟨offs / 146097, offs % 146097 / 36524,
        offs % 146097 % 36524 / 1461, 3, 365, ?_, by omega, by omega, by omega,
        by omega, by omega, by omega, by omega, by omega, by omega, by omega,
        by omega, by intro hd; omega⟩
      simp only [Prod.mk.injEq]
      constructor <;> first | trivial | omega
    · simp only [if_neg hy]
      refine ⟨offs / 146097, offs % 146097 / 36524,
        offs % 146097 % 36524 / 1461, offs % 146097 % 36524 % 1461 / 365,
        offs % 146097 % 36524 % 1461 % 365, ?_, by omega, by omega, by omega,
        by omega, by omega, by omega, by omega, by omega, by omega, by omega,
        by omega, by intro hd; omega⟩
      simp only [Prod.mk.injEq]
      constructor <;> first | trivial | omega

/-- Backward correctness of `grcalYearSplit`: on every valid component
decomposition the split recovers exactly the year components and the
day-in-year (day 365 being valid only when the following January-based
year is leap). -/
theorem grcalYearSplit_eq (A B C D d : Int)
    (hA : 0 ≤ A) (hB : 0 ≤ B) (hB3 : B ≤ 3) (hC : 0 ≤ C) (hC24 : C ≤ 24)
    (hD : 0 ≤ D) (hD3 : D ≤ 3) (hd0 : 0 ≤ d)
    (hcase : d ≤ 364
      ∨ (d = 365
          ∧ (((400 * A + 100 * B + 4 * C + D + 1201) % 4 = 0
                ∧ (400 * A + 100 * B + 4 * C + D + 1201) % 100 ≠ 0)
              ∨ (400 * A + 100 * B + 4 * C + D + 1201) % 400 = 0))) :
    grcalYearSplit (146097 * A + 36524 * B + 1461 * C + 365 * D + d)
      = (400 * A + 100 * B + 4 * C + D + 1200, d) := by
  have hkey : d ≤ 364 ∨ (d = 365 ∧ D = 3 ∧ (C ≤ 23 ∨ (C = 24 ∧ B = 3))) := by
    rcases hcase with h | ⟨hd, hl⟩
    · exact Or.inl h
    · exact Or.inr ⟨hd, by omega, by omega⟩
  simp only [grcalYearSplit, QC_DAYS, C_DAYS, Q_DAYS, Y_DAYS,
    QC_C_COUNT, C_Q_COUNT, Q_Y_COUNT, Y_LEAP_DAYS, QC_YEARS, C_YEARS, Q_YEARS,
    BASE_YEAR]
  rcases hkey with hd364 | ⟨hd, hD3, hCB⟩
  · -- ordinary day inside a year
    rw [show (146097 * A + 36524 * B + 1461 * C + 365 * D + d) / 146097 = A
          from by omega,
        show (146097 * A + 36524 * B + 1461 * C + 365 * D + d) % 146097
            = 36524 * B + 1461 * C + 365 * D + d from by omega]
    simp only [if_neg
      (show ¬((36524 * B + 1461 * C + 365 * D + d) / 36524 = 4) from by omega)]
    rw [show (36524 * B + 1461 * C + 365 * D + d) % 36524
          = 1461 * C + 365 * D + d from by omega]
    rw [show (1461 * C + 365 * D + d) / 1461 = C from by omega,
        show (1461 * C + 365 * D + d) % 1461 = 365 * D + d from by omega]
    rw [show (365 * D + d) / 365 = D from by omega,
        show (365 * D + d) % 365 = d from by omega]
    simp only [if_neg (show ¬(D = 4) from by omega)]
    rw [show (36524 * B + 1461 * C + 365 * D + d) / 36524 = B from by omega]
    simp only [Prod.mk.injEq]
    constructor <;> first | trivial | omega
  · subst hd
    subst hD3
    rcases hCB with hC23 | ⟨hc24, hb3⟩
    · -- leap day of an ordinary leap year (4-year-cycle end)
      rw [show (146097 * A + 36524 * B + 1461 * C + 365 * 3 + 365) / 146097 = A
            from by omega,
          show (146097 * A + 36524 * B + 1461 * C + 365 * 3 + 365) % 146097
              = 36524 * B + 1461 * C + 365 * 3 + 365 from by omega]
      simp only [if_neg
        (show ¬((36524 * B + 1461 * C + 365 * 3 + 365) / 36524 = 4)
          from by omega)]
      rw [show (36524 * B + 1461 * C + 365 * 3 + 365) % 36524
            = 1461 * C + 365 * 3 + 365 from by omega]
      rw [show (1461 * C + 365 * 3 + 365) / 1461 = C from by omega,
          show (1461 * C + 365 * 3 + 365) % 1461 = 365 * 3 + 365 from by omega]
      simp only [if_pos (show (365 * 3 + 365 : Int) / 365 = 4 from by omega)]
      rw [show (36524 * B + 1461 * C + 365 * 3 + 365) / 36524 = B from by omega]
      simp only [Prod.mk.injEq]
      constructor <;> first | trivial | omega
    · -- leap day at the very end of a quad century
      subst hc24
      subst hb3
      rw [show (146097 * A + 36524 * 3 + 1461 * 24 + 365 * 3 + 365) / 146097 = A
            from by omega,
          show (146097 * A + 36524 * 3 + 1461 * 24 + 365 * 3 + 365) % 146097
              = 146096 from by omega]
      simp only [if_pos (show (146096 : Int) / 36524 = 4 from by omega)]
      simp only [if_neg (show ¬((4 : Int) - 1 = 4) from by omega)]
      simp only [Prod.mk.injEq]
      constructor <;> first | trivial | omega

/-- Value form of `isLeapYear` on its legal domain. -/
theorem isLeapYear_eq (y : Int) (h : 1 ≤ y) :
    isLeapYear y = some (decide ((y % 4 = 0 ∧ y % 100 ≠ 0) ∨ y % 400 = 0)) := by
  unfold isLeapYear
  rw [if_neg (by omega)]
  refine congrArg some ?_
  by_cases h4 : y % 4 = 0 ∧ y % 100 ≠ 0
  · rw [if_pos h4]
    symm
    rw [decide_eq_true_eq]
    exact Or.inl h4
  · rw [if_neg h4]
    by_cases h400 : y % 400 = 0
    · rw [if_pos h400]
      symm
      rw [decide_eq_true_eq]
      exact Or.inr h400
    · rw [if_neg h400]
      symm
      rw [decide_eq_false_iff_not]
      rintro (hc | hc)
      · exact h4 hc
      · exact h400 hc

/-- Closed form of `grcal_dateToOffset` when the March-based month is one
of the fixed-length months: all validity checks pass and the result is the
year start plus the month start plus the day offset, subject only to the
final range check. -/
theorem dateToOffset_fixed_eq
    (year month dayofmonth Y m1 A B C D s L : Int)
    (h1 : 1200 < year) (h2 : year ≤ 9999) (h3 : 1 ≤ month) (h4 : month ≤ 12)
    (h5 : 1 ≤ dayofmonth)
    (hY : Y = (if month - 1 - 2 < 0 then year - 1 else year))
    (hm1 : m1 = (if month - 1 - 2 < 0 then month - 1 - 2 + 12 else month - 1 - 2))
    (hcomp : Y - 1200 = 400 * A + 100 * B + 4 * C + D)
    (hBb : 0 ≤ B) (hB3 : B ≤ 3) (hCb : 0 ≤ C) (hC24 : C ≤ 24)
    (hDb : 0 ≤ D) (hD3 : D ≤ 3)
    (hL : monthLength m1 = some L) (hL0 : ¬L = 0)
    (hdom : dayofmonth - 1 < L)
    (hs : sumMonthLens m1.toNat = some s) :
    grcal_dateToOffset year month dayofmonth
      = (if 146097 * A + 36524 * B + 1461 * C + 365 * D + s + (dayofmonth - 1)
              < 139750
            ∨ 146097 * A + 36524 * B + 1461 * C + 365 * D + s + (dayofmonth - 1)
              > 3214073
         then none
         else some (146097 * A + 36524 * B + 1461 * C + 365 * D + s
              + (dayofmonth - 1))) := by
  simp only [grcal_dateToOffset, MONTH_COUNT, MONTH_OFFSET, BASE_YEAR,
    MAX_YEAR, LEAP_MONTH_LENGTH, NONLEAP_MONTH_LENGTH, QC_YEARS, C_YEARS,
    Q_YEARS, QC_DAYS, C_DAYS, Q_DAYS, Y_DAYS, GRCAL_DAY_MIN, GRCAL_DAY_MAX]
  rw [if_neg (by omega), if_neg (by omega)]
  rw [← hY, ← hm1]
  split
  next heq => rw [hL] at heq; cases heq
  next ml0 heq =>
    rw [hL] at heq
    injection heq with hml0
    subst hml0
    rw [if_neg hL0]
    split
    next heq2 => cases heq2
    next ml heq2 =>
      injection heq2 with hml
      subst hml
      rw [if_neg (show ¬(dayofmonth - 1 ≥ L) from by omega)]
      split
      next heq3 => rw [hs] at heq3; cases heq3
      next ms heq3 =>
        rw [hs] at heq3
        injection heq3 with hms
        subst hms
        rw [show Y - 1200 = 400 * A + 100 * B + 4 * C + D from hcomp]
        rw [show (400 * A + 100 * B + 4 * C + D) / 400 = A from by omega,
            show (400 * A + 100 * B + 4 * C + D) % 400 = 100 * B + 4 * C + D
              from by omega]
        rw [show (100 * B + 4 * C + D) / 100 = B from by omega,
            show (100 * B + 4 * C + D) % 100 = 4 * C + D from by omega]
        rw [show (4 * C + D) / 4 = C from by omega,
            show (4 * C + D) % 4 = D from by omega]
        rw [show A * 146097 + B * 36524 + C * 1461 + D * 365 + s
              + (dayofmonth - 1)
            = 146097 * A + 36524 * B + 1461 * C + 365 * D + s
              + (dayofmonth - 1) from by ring]

/-- Closed form of `grcal_dateToOffset` when the March-based month is the
variable-length month (index 11): the month length is resolved through
the leap-year predicate on the following January-based year. -/
theorem dateToOffset_var_eq
    (year month dayofmonth Y A B C D : Int) (b : Bool)
    (h1 : 1200 < year) (h2 : year ≤ 9999) (h3 : 1 ≤ month) (h4 : month ≤ 12)
    (h5 : 1 ≤ dayofmonth)
    (hY : Y = (if month - 1 - 2 < 0 then year - 1 else year))
    (hm1 : (if month - 1 - 2 < 0 then month - 1 - 2 + 12 else month - 1 - 2)
        = 11)
    (hcomp : Y - 1200 = 400 * A + 100 * B + 4 * C + D)
    (hBb : 0 ≤ B) (hB3 : B ≤ 3) (hCb : 0 ≤ C) (hC24 : C ≤ 24)
    (hDb : 0 ≤ D) (hD3 : D ≤ 3)
    (hb : isLeapYear (Y + 1) = some b)
    (hdom : dayofmonth - 1 < (if b = true then (29 : Int) else 28)) :
    grcal_dateToOffset year month dayofmonth
      = (if 146097 * A + 36524 * B + 1461 * C + 365 * D + 337 + (dayofmonth - 1)
              < 139750
            ∨ 146097 * A + 36524 * B + 1461 * C + 365 * D + 337 + (dayofmonth - 1)
              > 3214073
         then none
         else some (146097 * A + 36524 * B + 1461 * C + 365 * D + 337
              + (dayofmonth - 1))) := by
  simp only [grcal_dateToOffset, MONTH_COUNT, MONTH_OFFSET, BASE_YEAR,
    MAX_YEAR, LEAP_MONTH_LENGTH, NONLEAP_MONTH_LENGTH, QC_YEARS, C_YEARS,
    Q_YEARS, QC_DAYS, C_DAYS, Q_DAYS, Y_DAYS, GRCAL_DAY_MIN, GRCAL_DAY_MAX]
  rw [if_neg (by omega), if_neg (by omega)]
  rw [← hY, hm1]
  have hL11 : monthLength 11 = some 0 := by decide
  split
  next heq => rw [hL11] at heq; cases heq
  next ml0 heq =>
    rw [hL11] at heq
    injection heq with hml0
    subst hml0
    rw [if_pos (show (0 : Int) = 0 from rfl)]
    rw [hb]
    have hs337 : sumMonthLens (11 : Int).toNat = some 337 := by decide
    cases b
    · have hdom28 : dayofmonth - 1 < 28 := by simpa using hdom
      split
      next heq2 =>
        rw [show (match some false with
          | none => none
          | some true => some (29 : Int)
          | some false => some 28) = some 28 from rfl] at heq2
        cases heq2
      next ml heq2 =>
        rw [show (match some false with
          | none => none
          | some true => some (29 : Int)
          | some false => some 28) = some 28 from rfl] at heq2
        injection heq2 with hml
        subst hml
        rw [if_neg (show ¬(dayofmonth - 1 ≥ 28) from by omega)]
        split
        next heq3 => rw [hs337] at heq3; cases heq3
        next ms heq3 =>
          rw [hs337] at heq3
          injection heq3 with hms
          subst hms
          rw [show Y - 1200 = 400 * A + 100 * B + 4 * C + D from hcomp]
          rw [show (400 * A + 100 * B + 4 * C + D) / 400 = A from by omega,
              show (400 * A + 100 * B + 4 * C + D) % 400
                  = 100 * B + 4 * C + D from by omega]
          rw [show (100 * B + 4 * C + D) / 100 = B from by omega,
              show (100 * B + 4 * C + D) % 100 = 4 * C + D from by omega]
          rw [show (4 * C + D) / 4 = C from by omega,
              show (4 * C + D) % 4 = D from by omega]
          rw [show A * 146097 + B * 36524 + C * 1461 + D * 365 + 337
                + (dayofmonth - 1)
              = 146097 * A + 36524 * B + 1461 * C + 365 * D + 337
                + (dayofmonth - 1) from by ring]
    · have hdom29 : dayofmonth - 1 < 29 := by simpa using hdom
      split
      next heq2 =>
        rw [show (match some true with
          | none => none
          | some true => some (29 : Int)
          | some false => some 28) = some 29 from rfl] at heq2
        cases heq2
      next ml heq2 =>
        rw [show (match some true with
          | none => none
          | some true => some (29 : Int)
          | some false => some 28) = some 29 from rfl] at heq2
        injection heq2 with hml
        subst hml
        rw [if_neg (show ¬(dayofmonth - 1 ≥ 29) from by omega)]
        split
        next heq3 => rw [hs337] at heq3; cases heq3
        next ms heq3 =>
          rw [hs337] at heq3
          injection heq3 with hms
          subst hms
          rw [show Y - 1200 = 400 * A + 100 * B + 4 * C + D from hcomp]
          rw [show (400 * A + 100 * B + 4 * C + D) / 400 = A from by omega,
              show (400 * A + 100 * B + 4 * C + D) % 400
                  = 100 * B + 4 * C + D from by omega]
          rw [show (100 * B + 4 * C + D) / 100 = B from by omega,
              show (100 * B + 4 * C + D) % 100 = 4 * C + D from by omega]
          rw [show (4 * C + D) / 4 = C from by omega,
              show (4 * C + D) % 4 = D from by omega]
          rw [show A * 146097 + B * 36524 + C * 1461 + D * 365 + 337
                + (dayofmonth - 1)
              = 146097 * A + 36524 * B + 1461 * C + 365 * D + 337
                + (dayofmonth - 1) from by ring]

set_option maxHeartbeats 1000000 in
/-- Gregorian round trip, forward direction: every in-range day offset
decodes to a date that encodes back to the same offset. -/
theorem greg_offset_roundtrip (offs : Int)
    (h1 : GRCAL_DAY_MIN ≤ offs) (h2 : offs ≤ GRCAL_DAY_MAX) :
    ∃ y m d, grcal_offsetToDate offs = some (y, m, d)
      ∧ grcal_dateToOffset y m d = some offs := by
  simp only [GRCAL_DAY_MIN, GRCAL_DAY_MAX] at h1 h2
  obtain ⟨A, B, C, D, dd, hsplit, hoffs, hA0, hA21, hB0, hB3, hC0, hC24, hD0,
    hD3, hdd0, hdd365, hleap⟩ := grcalYearSplit_spec offs (by omega) (by omega)
  obtain ⟨mk, rr, s, L, hw, hs, hL, hsum, hmk0, hmk11, hrr0, hfix, hvar, h305⟩ :=
    greg_walk_spec dd hdd0 hdd365
  have h1' : (grcalYearSplit offs).1 = 400 * A + 100 * B + 4 * C + D + 1200 := by
    rw [hsplit]
  have h2' : (grcalYearSplit offs).2 = dd := by rw [hsplit]
  by_cases hro : (12 : Int) ≤ mk + 2
  · have hotd : grcal_offsetToDate offs
        = some (400 * A + 100 * B + 4 * C + D + 1200 + 1,
            mk + 2 - 12 + 1, rr + 1) := by
      simp only [grcal_offsetToDate, GRCAL_DAY_MIN, GRCAL_DAY_MAX,
        MONTH_OFFSET, MONTH_COUNT]
      rw [if_neg (by omega)]
      rw [h2', h1']
      split
      next heq => rw [hw] at heq; cases heq
      next km heq =>
        rw [hw] at heq
        injection heq with hkm
        subst hkm
        dsimp only
        simp only [if_pos hro]
    refine ⟨_, _, _, hotd, ?_⟩
    by_cases hmkv : mk = 11
    · subst hmkv
      obtain ⟨s', L', hs', hL', _, _, _, _, _, h337⟩ :=
        greg_monthTable_spec 11 (by omega) (by omega)
      have hseq : s = 337 := by
        rw [hs] at hs'
        injection hs' with he
        have h3 := h337 rfl
        omega
      have hb := isLeapYear_eq (400 * A + 100 * B + 4 * C + D + 1200 + 1)
        (by omega)
      have hrr28 : rr ≤ 28 := (hvar rfl).1
      have hdomv : rr + 1 - 1
          < (if (decide (((400 * A + 100 * B + 4 * C + D + 1200 + 1) % 4 = 0
                ∧ (400 * A + 100 * B + 4 * C + D + 1200 + 1) % 100 ≠ 0)
              ∨ (400 * A + 100 * B + 4 * C + D + 1200 + 1) % 400 = 0)) = true
            then (29 : Int) else 28) := by
        by_cases hrr27 : rr ≤ 27
        · split
          · omega
          · omega
        · have hrr' : rr = 28 := by omega
          have hdd' : dd = 365 := by omega
          have hm := hleap hdd'
          have hPtrue : (decide (((400 * A + 100 * B + 4 * C + D + 1200 + 1) % 4 = 0
                ∧ (400 * A + 100 * B + 4 * C + D + 1200 + 1) % 100 ≠ 0)
              ∨ (400 * A + 100 * B + 4 * C + D + 1200 + 1) % 400 = 0)) = true := by
            rw [decide_eq_true_eq]
            omega
          rw [hPtrue]
          rw [if_pos rfl]
          omega
      have hdto := dateToOffset_var_eq
        (400 * A + 100 * B + 4 * C + D + 1200 + 1) (11 + 2 - 12 + 1) (rr + 1)
        (400 * A + 100 * B + 4 * C + D + 1200) A B C D _
        (by omega) (by omega) (by omega) (by omega) (by omega)
        (by rw [if_pos (by omega)]; omega)
        (by rw [if_pos (by omega)]; omega)
        (by omega) hB0 hB3 hC0 hC24 hD0 hD3 hb hdomv
      rw [hdto]
      rw [if_neg (by omega)]
      simp only [Option.some.injEq]
      omega
    · have hmk10 : mk = 10 := by omega
      subst hmk10
      obtain ⟨s', L', hs', hL', _, _, _, _, hiff, _⟩ :=
        greg_monthTable_spec 10 (by omega) (by omega)
      have hLeq : L' = L := by
        rw [hL] at hL'
        injection hL' with he
        omega
      have hL0 : ¬L = 0 := by
        intro hz
        have := hiff.mp (by omega)
        omega
      have hdto := dateToOffset_fixed_eq
        (400 * A + 100 * B + 4 * C + D + 1200 + 1) (10 + 2 - 12 + 1) (rr + 1)
        (400 * A + 100 * B + 4 * C + D + 1200) 10 A B C D s L
        (by omega) (by omega) (by omega) (by omega) (by omega)
        (by rw [if_pos (by omega)]; omega)
        (by rw [if_pos (by omega)]; omega)
        (by omega) hB0 hB3 hC0 hC24 hD0 hD3 hL hL0
        (by have := hfix (by omega); omega) hs
      rw [hdto]
      rw [if_neg (by omega)]
      simp only [Option.some.injEq]
      omega
  · have hotd : grcal_offsetToDate offs
        = some (400 * A + 100 * B + 4 * C + D + 1200, mk + 2 + 1, rr + 1) := by
      simp only [grcal_offsetToDate, GRCAL_DAY_MIN, GRCAL_DAY_MAX,
        MONTH_OFFSET, MONTH_COUNT]
      rw [if_neg (by omega)]
      rw [h2', h1']
      split
      next heq => rw [hw] at heq; cases heq
      next km heq =>
        rw [hw] at heq
        injection heq with hkm
        subst hkm
        dsimp only
        simp only [if_neg hro]
    refine ⟨_, _, _, hotd, ?_⟩
    obtain ⟨s', L', hs', hL', _, _, _, _, hiff, _⟩ :=
      greg_monthTable_spec mk (by omega) (by omega)
    have hLeq : L' = L := by
      rw [hL] at hL'
      injection hL' with he
      omega
    have hL0 : ¬L = 0 := by
      intro hz
      have := hiff.mp (by omega)
      omega
    have hdto := dateToOffset_fixed_eq
      (400 * A + 100 * B + 4 * C + D + 1200) (mk + 2 + 1) (rr + 1)
      (400 * A + 100 * B + 4 * C + D + 1200) mk A B C D s L
      (by omega) (by omega) (by omega) (by omega) (by omega)
      (by rw [if_neg (by omega)])
      (by rw [if_neg (by omega)]; omega)
      (by omega) hB0 hB3 hC0 hC24 hD0 hD3 hL hL0
      (by have := hfix (by omega); omega) hs
    rw [hdto]
    rw [if_neg (by omega)]
    simp only [Option.some.injEq]
    omega

/-- Assembly form of `grcal_offsetToDate` from a year split and a month
walk: the decoded triple is the un-March-ified year, month and day. -/
theorem offsetToDate_eq (o A B C D dd mk rr : Int)
    (hrange : ¬(o < 139750 ∨ o > 3214073))
    (ho : grcalYearSplit o = (400 * A + 100 * B + 4 * C + D + 1200, dd))
    (hw : offsMonthWalk m_pattern dd = some (mk, rr)) :
    grcal_offsetToDate o
      = some ((if 12 ≤ mk + 2 then 400 * A + 100 * B + 4 * C + D + 1200 + 1
                else 400 * A + 100 * B + 4 * C + D + 1200),
              (if 12 ≤ mk + 2 then mk + 2 - 12 else mk + 2) + 1, rr + 1) := by
  simp only [grcal_offsetToDate, GRCAL_DAY_MIN, GRCAL_DAY_MAX, MONTH_OFFSET,
    MONTH_COUNT]
  rw [if_neg hrange]
  have h1' : (grcalYearSplit o).1 = 400 * A + 100 * B + 4 * C + D + 1200 := by
    rw [ho]
  have h2' : (grcalYearSplit o).2 = dd := by rw [ho]
  rw [h2', h1']
  split
  next heq => rw [hw] at heq; cases heq
  next km heq =>
    rw [hw] at heq
    injection heq with hkm
    subst hkm
    rfl

set_option maxHeartbeats 1000000 in
/-- Gregorian round trip, backward direction: every successful encoding
decodes back to exactly the original (year, month, day) triple. -/
theorem greg_date_roundtrip (y m d o : Int)
    (h : grcal_dateToOffset y m d = some o) :
    grcal_offsetToDate o = some (y, m, d) := by
  simp only [grcal_dateToOffset, MONTH_COUNT, MONTH_OFFSET, BASE_YEAR,
    MAX_YEAR, LEAP_MONTH_LENGTH, NONLEAP_MONTH_LENGTH, QC_YEARS, C_YEARS,
    Q_YEARS, QC_DAYS, C_DAYS, Q_DAYS, Y_DAYS, GRCAL_DAY_MIN, GRCAL_DAY_MAX] at h
  split at h
  next => simp at h
  next hchk1 =>
  split at h
  next => simp at h
  next hchk2 =>
  by_cases hmarch : m - 1 - 2 < 0
  · simp only [if_pos hmarch] at h
    obtain ⟨s, L, hsT, hLT, hs0, hL0b, hL31, hsL, hiff, h337s⟩ :=
      greg_monthTable_spec (m - 1 - 2 + 12) (by omega) (by omega)
    split at h
    next heqL => simp at h
    next ml0 heqL =>
      have hLml : L = ml0 := by
        rw [heqL] at hLT
        injection hLT with he
        omega
      subst hLml
      split at h
      next heqm => -- mlOpt evaluates to none: impossible
        split at heqm
        next hml00 =>
          rw [isLeapYear_eq (y - 1 + 1) (by omega)] at heqm
          cases hP : (decide (((y - 1 + 1) % 4 = 0 ∧ (y - 1 + 1) % 100 ≠ 0)
              ∨ (y - 1 + 1) % 400 = 0)) <;> rw [hP] at heqm <;> simp at heqm
        next hml00 => cases heqm
      next ml heqm =>
        split at heqm
        next hml00 => -- variable month; resolve the leap predicate
          subst hml00
          have hm11 : m - 1 - 2 + 12 = 11 := hiff.mp rfl
          rw [isLeapYear_eq (y - 1 + 1) (by omega)] at heqm
          have hs337 : s = 337 := h337s hm11
          cases hP : (decide (((y - 1 + 1) % 4 = 0 ∧ (y - 1 + 1) % 100 ≠ 0)
              ∨ (y - 1 + 1) % 400 = 0)) <;> rw [hP] at heqm
          · -- not leap: ml = 28
            rw [show (match some false with
              | none => none
              | some true => some (29 : Int)
              | some false => some 28) = some 28 from rfl] at heqm
            injection heqm with hml
            subst hml
            rw [decide_eq_false_iff_not] at hP
            split at h
            next => simp at h
            next hdom =>
              split at h
              next heqs => rw [hsT] at heqs; cases heqs
              next ms heqs =>
                rw [hsT] at heqs
                injection heqs with hms
                subst hms
                split at h
                next => simp at h
                next hrange =>
                  injection h with ho
                  have hsp := grcalYearSplit_eq ((y - 1 - 1200) / 400)
                    ((y - 1 - 1200) % 400 / 100) ((y - 1 - 1200) % 400 % 100 / 4)
                    ((y - 1 - 1200) % 400 % 100 % 4) (s + (d - 1))
                    (by omega) (by omega) (by omega) (by omega) (by omega)
                    (by omega) (by omega) (by omega)
                    (by left; omega)
                  have hwb := greg_walk_back (m - 1 - 2 + 12) (d - 1) s 0
                    (by omega) (by omega) (by omega) hsT heqL
                    (by right; exact ⟨by omega, by omega⟩)
                  have hod := offsetToDate_eq o ((y - 1 - 1200) / 400)
                    ((y - 1 - 1200) % 400 / 100) ((y - 1 - 1200) % 400 % 100 / 4)
                    ((y - 1 - 1200) % 400 % 100 % 4) (s + (d - 1))
                    (m - 1 - 2 + 12) (d - 1)
                    (by omega)
                    (by rw [show o = 146097 * ((y - 1 - 1200) / 400)
                          + 36524 * ((y - 1 - 1200) % 400 / 100)
                          + 1461 * ((y - 1 - 1200) % 400 % 100 / 4)
                          + 365 * ((y - 1 - 1200) % 400 % 100 % 4)
                          + (s + (d - 1)) from by omega]
                        exact hsp)
                    hwb
                  rw [hod]
                  rw [if_pos (by omega), if_pos (by omega)]
                  simp only [Option.some.injEq, Prod.mk.injEq]
                  refine ⟨by omega, by omega, by omega⟩
          · -- leap: ml = 29
            rw [show (match some true with
              | none => none
              | some true => some (29 : Int)
              | some false => some 28) = some 29 from rfl] at heqm
            injection heqm with hml
            subst hml
            rw [decide_eq_true_eq] at hP
            split at h
            next => simp at h
            next hdom =>
              split at h
              next heqs => rw [hsT] at heqs; cases heqs
              next ms heqs =>
                rw [hsT] at heqs
                injection heqs with hms
                subst hms
                split at h
                next => simp at h
                next hrange =>
                  injection h with ho
                  have hsp := grcalYearSplit_eq ((y - 1 - 1200) / 400)
                    ((y - 1 - 1200) % 400 / 100) ((y - 1 - 1200) % 400 % 100 / 4)
                    ((y - 1 - 1200) % 400 % 100 % 4) (s + (d - 1))
                    (by omega) (by omega) (by omega) (by omega) (by omega)
                    (by omega) (by omega) (by omega)
                    (by
                      by_cases hd29 : d - 1 ≤ 27
                      · left; omega
                      · right
                        constructor
                        · omega
                        · omega)
                  have hwb := greg_walk_back (m - 1 - 2 + 12) (d - 1) s 0
                    (by omega) (by omega) (by omega) hsT heqL
                    (by right; exact ⟨by omega, by omega⟩)
                  have hod := offsetToDate_eq o ((y - 1 - 1200) / 400)
                    ((y - 1 - 1200) % 400 / 100) ((y - 1 - 1200) % 400 % 100 / 4)
                    ((y - 1 - 1200) % 400 % 100 % 4) (s + (d - 1))
                    (m - 1 - 2 + 12) (d - 1)
                    (by omega)
                    (by rw [show o = 146097 * ((y - 1 - 1200) / 400)
                          + 36524 * ((y - 1 - 1200) % 400 / 100)
                          + 1461 * ((y - 1 - 1200) % 400 % 100 / 4)
                          + 365 * ((y - 1 - 1200) % 400 % 100 % 4)
                          + (s + (d - 1)) from by omega]
                        exact hsp)
                    hwb
                  rw [hod]
                  rw [if_pos (by omega), if_pos (by omega)]
                  simp only [Option.some.injEq, Prod.mk.injEq]
                  refine ⟨by omega, by omega, by omega⟩
        next hml00 => -- fixed month
          injection heqm with hml
          subst hml
          have hne11 : ¬(m - 1 - 2 + 12 = 11) := fun hc => hml00 (hiff.mpr hc)
          split at h
          next => simp at h
          next hdom =>
            split at h
            next heqs => rw [hsT] at heqs; cases heqs
            next ms heqs =>
              rw [hsT] at heqs
              injection heqs with hms
              subst hms
              split at h
              next => simp at h
              next hrange =>
                injection h with ho
                have hsp := grcalYearSplit_eq ((y - 1 - 1200) / 400)
                  ((y - 1 - 1200) % 400 / 100) ((y - 1 - 1200) % 400 % 100 / 4)
                  ((y - 1 - 1200) % 400 % 100 % 4) (s + (d - 1))
                  (by omega) (by omega) (by omega) (by omega) (by omega)
                  (by omega) (by omega) (by omega)
                  (by left; omega)
                have hwb := greg_walk_back (m - 1 - 2 + 12) (d - 1) s L
                  (by omega) (by omega) (by omega) hsT heqL
                  (by left; exact ⟨by omega, by omega⟩)
                have hod := offsetToDate_eq o ((y - 1 - 1200) / 400)
                  ((y - 1 - 1200) % 400 / 100) ((y - 1 - 1200) % 400 % 100 / 4)
                  ((y - 1 - 1200) % 400 % 100 % 4) (s + (d - 1))
                  (m - 1 - 2 + 12) (d - 1)
                  (by omega)
                  (by rw [show o = 146097 * ((y - 1 - 1200) / 400)
                        + 36524 * ((y - 1 - 1200) % 400 / 100)
                        + 1461 * ((y - 1 - 1200) % 400 % 100 / 4)
                        + 365 * ((y - 1 - 1200) % 400 % 100 % 4)
                        + (s + (d - 1)) from by omega]
                      exact hsp)
                  hwb
                rw [hod]
                rw [if_pos (by omega), if_pos (by omega)]
                simp only [Option.some.injEq, Prod.mk.injEq]
                refine ⟨by omega, by omega, by omega⟩
  · simp only [if_neg hmarch] at h
    obtain ⟨s, L, hsT, hLT, hs0, hL0b, hL31, hsL, hiff, h337s⟩ :=
      greg_monthTable_spec (m - 1 - 2) (by omega) (by omega)
    split at h
    next heqL => simp at h
    next ml0 heqL =>
      have hLml : L = ml0 := by
        rw [heqL] at hLT
        injection hLT with he
        omega
      subst hLml
      split at h
      next heqm => -- mlOpt evaluates to none: impossible
        split at heqm
        next hml00 =>
          have hc := hiff.mp hml00
          omega
        next hml00 => cases heqm
      next ml heqm =>
        split at heqm
        next hml00 => -- variable month: impossible here
          have hc := hiff.mp hml00
          omega
        next hml00 => -- fixed month
          injection heqm with hml
          subst hml
          split at h
          next => simp at h
          next hdom =>
            split at h
            next heqs => rw [hsT] at heqs; cases heqs
            next ms heqs =>
              rw [hsT] at heqs
              injection heqs with hms
              subst hms
              split at h
              next => simp at h
              next hrange =>
                injection h with ho
                have hsp := grcalYearSplit_eq ((y - 1200) / 400)
                  ((y - 1200) % 400 / 100) ((y - 1200) % 400 % 100 / 4)
                  ((y - 1200) % 400 % 100 % 4) (s + (d - 1))
                  (by omega) (by omega) (by omega) (by omega) (by omega)
                  (by omega) (by omega) (by omega)
                  (by left; omega)
                have hwb := greg_walk_back (m - 1 - 2) (d - 1) s L
                  (by omega) (by omega) (by omega) hsT heqL
                  (by left; exact ⟨by omega, by omega⟩)
                have hod := offsetToDate_eq o ((y - 1200) / 400)
                  ((y - 1200) % 400 / 100) ((y - 1200) % 400 % 100 / 4)
                  ((y - 1200) % 400 % 100 % 4) (s + (d - 1))
                  (m - 1 - 2) (d - 1)
                  (by omega)
                  (by rw [show o = 146097 * ((y - 1200) / 400)
                        + 36524 * ((y - 1200) % 400 / 100)
                        + 1461 * ((y - 1200) % 400 % 100 / 4)
                        + 365 * ((y - 1200) % 400 % 100 % 4)
                        + (s + (d - 1)) from by omega]
                      exact hsp)
                  hwb
                rw [hod]
                rw [if_neg (by omega), if_neg (by omega)]
                simp only [Option.some.injEq, Prod.mk.injEq]
                refine ⟨by omega, by omega, by omega⟩

/-- The raw offset is the year-start day count of the March-based year
plus the month-start sum plus the in-month day index. -/
theorem gregRawOffset_eq (y m d s : Int)
    (hs : sumMonthLens
        (if m - 1 - 2 < 0 then m - 1 - 2 + 12 else m - 1 - 2).toNat = some s) :
    gregRawOffset y m d
      = yearStartDays (if m - 1 - 2 < 0 then y - 1 else y) + s + (d - 1) := by
  simp only [gregRawOffset, MONTH_OFFSET, MONTH_COUNT]
  rw [hs]
  rfl

/-- The Gregorian leap predicate agrees with the decidable form produced
by `isLeapYear` on the year written as `y - 1 + 1`. -/
theorem gregIsLeapB_decide (y : Int) :
    gregIsLeapB y
      = decide (((y - 1 + 1) % 4 = 0 ∧ (y - 1 + 1) % 100 ≠ 0)
          ∨ (y - 1 + 1) % 400 = 0) := by
  unfold gregIsLeapB
  rw [decide_eq_decide]
  omega

/-- For each January-based month 1..12, the March-based month table entry
either is the fixed positive length equal to the standard table, or is
the variable marker 0 and the month is February. -/
theorem gregMonthLen_bridge (y m : Int) (h3 : 1 ≤ m) (h4 : m ≤ 12) :
    ∃ L, monthLength (if m - 1 - 2 < 0 then m - 1 - 2 + 12 else m - 1 - 2)
        = some L
      ∧ ((¬L = 0 ∧ gregMonthLen y m = L)
          ∨ (L = 0 ∧ m = 2
              ∧ gregMonthLen y m = (if gregIsLeapB y then (29 : Int) else 28))) := by
  interval_cases m
  · exact ⟨31, by decide, Or.inl ⟨by decide, by norm_num [gregMonthLen]⟩⟩
  · exact ⟨0, by decide, Or.inr ⟨rfl, rfl, by simp [gregMonthLen]⟩⟩
  · exact ⟨31, by decide, Or.inl ⟨by decide, by norm_num [gregMonthLen]⟩⟩
  · exact ⟨30, by decide, Or.inl ⟨by decide, by norm_num [gregMonthLen]⟩⟩
  · exact ⟨31, by decide, Or.inl ⟨by decide, by norm_num [gregMonthLen]⟩⟩
  · exact ⟨30, by decide, Or.inl ⟨by decide, by norm_num [gregMonthLen]⟩⟩
  · exact ⟨31, by decide, Or.inl ⟨by decide, by norm_num [gregMonthLen]⟩⟩
  · exact ⟨31, by decide, Or.inl ⟨by decide, by norm_num [gregMonthLen]⟩⟩
  · exact ⟨30, by decide, Or.inl ⟨by decide, by norm_num [gregMonthLen]⟩⟩
  · exact ⟨31, by decide, Or.inl ⟨by decide, by norm_num [gregMonthLen]⟩⟩
  · exact ⟨30, by decide, Or.inl ⟨by decide, by norm_num [gregMonthLen]⟩⟩
  · exact ⟨31, by decide, Or.inl ⟨by decide, by norm_num [gregMonthLen]⟩⟩

/-- On a well-formed date the encoder reduces to the raw offset guarded
only by the output range check. -/
theorem dateToOffset_valid_eq (y m d : Int) (hv : gregValidDate y m d) :
    grcal_dateToOffset y m d
      = if gregRawOffset y m d < 139750 ∨ gregRawOffset y m d > 3214073
        then none else some (gregRawOffset y m d) := by
  obtain ⟨h1, h2, h3, h4, h5, h6⟩ := hv
  simp only [BASE_YEAR, MAX_YEAR, MONTH_COUNT] at h1 h2 h4
  obtain ⟨L, hL, hcases⟩ := gregMonthLen_bridge y m h3 h4
  obtain ⟨s, L', hs, hL', hs0, hL'0, hL'31, hsL, hiff, h337⟩ :=
    greg_monthTable_spec (if m - 1 - 2 < 0 then m - 1 - 2 + 12 else m - 1 - 2)
      (by split <;> omega) (by split <;> omega)
  rw [hL] at hL'
  injection hL' with hLL
  have hraw := gregRawOffset_eq y m d s hs
  have hys : yearStartDays (if m - 1 - 2 < 0 then y - 1 else y)
      = 146097 * (((if m - 1 - 2 < 0 then y - 1 else y) - 1200) / 400)
        + 36524 * (((if m - 1 - 2 < 0 then y - 1 else y) - 1200) % 400 / 100)
        + 1461 * (((if m - 1 - 2 < 0 then y - 1 else y) - 1200) % 400 % 100 / 4)
        + 365 * (((if m - 1 - 2 < 0 then y - 1 else y) - 1200) % 400 % 100 % 4)
      := by
    simp only [yearStartDays, BASE_YEAR, QC_YEARS, QC_DAYS, C_YEARS, C_DAYS,
      Q_YEARS, Q_DAYS, Y_DAYS]
    omega
  have hYb : 1200 ≤ (if m - 1 - 2 < 0 then y - 1 else y) := by split <;> omega
  rcases hcases with ⟨hL0, hlen⟩ | ⟨hL0, hm2, hlen⟩
  · -- fixed-length month
    rw [dateToOffset_fixed_eq y m d (if m - 1 - 2 < 0 then y - 1 else y)
      (if m - 1 - 2 < 0 then m - 1 - 2 + 12 else m - 1 - 2)
      (((if m - 1 - 2 < 0 then y - 1 else y) - 1200) / 400)
      (((if m - 1 - 2 < 0 then y - 1 else y) - 1200) % 400 / 100)
      (((if m - 1 - 2 < 0 then y - 1 else y) - 1200) % 400 % 100 / 4)
      (((if m - 1 - 2 < 0 then y - 1 else y) - 1200) % 400 % 100 % 4)
      s L h1 h2 h3 h4 h5 rfl rfl (by omega) (by omega) (by omega) (by omega)
      (by omega) (by omega) (by omega) hL hL0 (by omega) hs]
    rw [show 146097 * (((if m - 1 - 2 < 0 then y - 1 else y) - 1200) / 400)
        + 36524 * (((if m - 1 - 2 < 0 then y - 1 else y) - 1200) % 400 / 100)
        + 1461 * (((if m - 1 - 2 < 0 then y - 1 else y) - 1200) % 400 % 100 / 4)
        + 365 * (((if m - 1 - 2 < 0 then y - 1 else y) - 1200) % 400 % 100 % 4)
        + s + (d - 1) = gregRawOffset y m d from by rw [hraw]; omega]
  · -- February: variable-length month
    subst hm2
    have h11 : (if (2 : Int) - 1 - 2 < 0 then (2 : Int) - 1 - 2 + 12
        else 2 - 1 - 2) = 11 := by norm_num
    have hs337 : s = 337 := h337 h11
    rw [dateToOffset_var_eq y 2 d (if (2 : Int) - 1 - 2 < 0 then y - 1 else y)
      (((if (2 : Int) - 1 - 2 < 0 then y - 1 else y) - 1200) / 400)
      (((if (2 : Int) - 1 - 2 < 0 then y - 1 else y) - 1200) % 400 / 100)
      (((if (2 : Int) - 1 - 2 < 0 then y - 1 else y) - 1200) % 400 % 100 / 4)
      (((if (2 : Int) - 1 - 2 < 0 then y - 1 else y) - 1200) % 400 % 100 % 4)
      (decide ((((if (2 : Int) - 1 - 2 < 0 then y - 1 else y) + 1) % 4 = 0
          ∧ ((if (2 : Int) - 1 - 2 < 0 then y - 1 else y) + 1) % 100 ≠ 0)
        ∨ ((if (2 : Int) - 1 - 2 < 0 then y - 1 else y) + 1) % 400 = 0))
      h1 h2 (by norm_num) (by norm_num) h5 rfl h11 (by omega)
      (by omega) (by omega) (by omega) (by omega) (by omega) (by omega)
      (isLeapYear_eq _ (by omega)) ?_]
    · rw [show 146097 * (((if (2:Int) - 1 - 2 < 0 then y - 1 else y) - 1200) / 400)
          + 36524 * (((if (2:Int) - 1 - 2 < 0 then y - 1 else y) - 1200) % 400 / 100)
          + 1461 * (((if (2:Int) - 1 - 2 < 0 then y - 1 else y) - 1200) % 400 % 100 / 4)
          + 365 * (((if (2:Int) - 1 - 2 < 0 then y - 1 else y) - 1200) % 400 % 100 % 4)
          + 337 + (d - 1) = gregRawOffset y 2 d from by rw [hraw]; omega]
    · -- the day bound through the leap predicate
      have hY : (if (2 : Int) - 1 - 2 < 0 then y - 1 else y) = y - 1 := by
        norm_num
      rw [hY]
      rw [← gregIsLeapB_decide y]
      rw [hlen] at h6
      cases hgb : gregIsLeapB y <;> rw [hgb] at h6 <;> simp at h6 ⊢ <;> omega

/-- On any ill-formed date the encoder fails outright. -/
theorem dateToOffset_none_of_invalid (y m d : Int)
    (h : ¬gregValidDate y m d) : grcal_dateToOffset y m d = none := by
  simp only [gregValidDate, BASE_YEAR, MAX_YEAR, MONTH_COUNT, not_and_or] at h
  by_cases hc1 : y ≤ 1200 ∨ m < 1 ∨ d < 1
  · simp only [grcal_dateToOffset, BASE_YEAR]
    rw [if_pos hc1]
  · by_cases hc2 : y > 9999 ∨ m > 12
    · simp only [grcal_dateToOffset, BASE_YEAR, MAX_YEAR, MONTH_COUNT]
      rw [if_neg hc1, if_pos hc2]
    · have h6 : gregMonthLen y m < d := by
        rcases h with h | h | h | h | h | h <;> omega
      obtain ⟨L, hL, hcases⟩ := gregMonthLen_bridge y m (by omega) (by omega)
      simp only [grcal_dateToOffset, BASE_YEAR, MAX_YEAR, MONTH_COUNT,
        MONTH_OFFSET, LEAP_MONTH_LENGTH, NONLEAP_MONTH_LENGTH]
      rw [if_neg hc1, if_neg hc2]
      split
      next => rfl
      next ml0 heq =>
        rw [hL] at heq
        injection heq with hml
        subst hml
        rcases hcases with ⟨hL0, hlen⟩ | ⟨hL0, hm2, hlen⟩
        · rw [if_neg hL0]
          split
          next h2 => cases h2
          next ml h2 =>
            injection h2 with hml2
            subst hml2
            rw [if_pos (show d - 1 ≥ L from by omega)]
        · subst hm2
          rw [if_pos hL0]
          rw [if_pos (show ((2 : Int) - 1 - 2 < 0) from by norm_num)]
          rw [isLeapYear_eq (y - 1 + 1) (by omega)]
          rw [← gregIsLeapB_decide y]
          cases hgb : gregIsLeapB y <;> rw [hgb] at hlen
          · rw [show (match some false with
              | none => none
              | some true => some (29 : Int)
              | some false => some 28) = some 28 from rfl]
            simp only [Bool.false_eq_true, if_false] at hlen
            split
            next h2 => cases h2
            next ml h2 =>
              injection h2 with hml2
              subst hml2
              rw [if_pos (show d - 1 ≥ 28 from by omega)]
          · rw [show (match some true with
              | none => none
              | some true => some (29 : Int)
              | some false => some 28) = some 29 from rfl]
            simp only [if_true] at hlen
            split
            next h2 => cases h2
            next ml h2 =>
              injection h2 with hml2
              subst hml2
              rw [if_pos (show d - 1 ≥ 29 from by omega)]

/-- C1: Gregorian round trip. Every day offset in
[GRCAL_DAY_MIN, GRCAL_DAY_MAX] decodes through `grcal_offsetToDate` to a
date that `grcal_dateToOffset` encodes back to the same offset, and every
date that `grcal_dateToOffset` successfully encodes is decoded back to
exactly the same (year, month, day) triple by `grcal_offsetToDate`. -/
theorem c1_gregorian_roundtrip :
    (∀ offs : Int, GRCAL_DAY_MIN ≤ offs → offs ≤ GRCAL_DAY_MAX →
      ∃ y m d, grcal_offsetToDate offs = some (y, m, d)
        ∧ grcal_dateToOffset y m d = some offs)
    ∧ (∀ y m d o : Int, grcal_dateToOffset y m d = some o →
        grcal_offsetToDate o = some (y, m, d)) :=
  ⟨greg_offset_roundtrip, greg_date_roundtrip⟩

/-- Concrete instance of the C1 round trip at the leap day 1600-02-29,
whose offset is 146096. -/
theorem c1_gregorian_roundtrip_witness :
    grcal_offsetToDate 146096 = some (1600, 2, 29) :=
  c1_gregorian_roundtrip.2 1600 2 29 146096 (by decide)

/-- C7: `grcal_dateToOffset` fails exactly when the input is not a
well-formed in-range Gregorian date or its computed day offset falls
outside [GRCAL_DAY_MIN, GRCAL_DAY_MAX]; in particular 1700-02-29 is
rejected and 1600-02-29 is accepted. -/
theorem c7_gregorian_validity_rejection :
    (∀ y m d : Int,
      grcal_dateToOffset y m d = none
        ↔ ¬(gregValidDate y m d
            ∧ GRCAL_DAY_MIN ≤ gregRawOffset y m d
            ∧ gregRawOffset y m d ≤ GRCAL_DAY_MAX))
    ∧ grcal_dateToOffset 1700 2 29 = none
    ∧ grcal_dateToOffset 1600 2 29 = some 146096 := by
  refine ⟨fun y m d => ?_, by decide, by decide⟩
  constructor
  · intro hn hc
    obtain ⟨hv, hlo, hhi⟩ := hc
    rw [dateToOffset_valid_eq y m d hv] at hn
    rw [if_neg (by
      simp only [GRCAL_DAY_MIN, GRCAL_DAY_MAX] at hlo hhi
      omega)] at hn
    cases hn
  · intro hc
    by_cases hv : gregValidDate y m d
    · rw [dateToOffset_valid_eq y m d hv]
      rw [if_pos (by
        have hrange : ¬(GRCAL_DAY_MIN ≤ gregRawOffset y m d
            ∧ gregRawOffset y m d ≤ GRCAL_DAY_MAX) :=
          fun hr => hc ⟨hv, hr.1, hr.2⟩
        simp only [GRCAL_DAY_MIN, GRCAL_DAY_MAX] at hrange
        omega)]
    · exact dateToOffset_none_of_invalid y m d hv

/-- Concrete instance of C7: 1700-02-29 is rejected. -/
theorem c7_gregorian_validity_rejection_witness :
    grcal_dateToOffset 1700 2 29 = none :=
  c7_gregorian_validity_rejection.2.1
